import Mathlib

/-!
# Verification of the analytics engine in `backend/data_processor.py`

Shallow embedding of the `DataProcessor` class of `familybudgetpro/bi-app`.
Tables are modelled as a list of column names plus a list of rows, each row an
association list from column name to cell value.  Pandas `NaN` / Python `None`
are both modelled by `Value.null`; numeric cells are modelled by exact
rationals (float rounding is not modelled); date cells are modelled as ISO
`YYYY-MM-DD` strings, with an explicit parser standing in for
`pandas.to_datetime`.  The wall-clock timestamp recorded in change-log entries
is an external effect and is omitted from `ChangeEntry`.
-/

/-- A cell value.  `null` models both pandas `NaN` and Python `None`. -/
inductive Value where
  | num (q : ℚ)
  | str (s : String)
  | bool (b : Bool)
  | null
deriving DecidableEq, Repr

/-- A table row: an association list from column name to value.
In pandas every row has a cell for every column; lookups of absent
columns yield `null` (the `NaN` a reindex would produce). -/
structure Row where
  cells : List (String × Value)
deriving DecidableEq, Repr

/-- `row[col]`: the first cell named `col`, `null` if absent. -/
def Row.get (r : Row) (c : String) : Value :=
  match r.cells.lookup c with
  | some v => v
  | none => Value.null

/-- A rectangular table: ordered column names and ordered rows. -/
structure Table where
  cols : List String
  rows : List Row
deriving DecidableEq, Repr

/-- `DataProcessor._find_column`: first candidate present among the columns. -/
def find_column (t : Table) (candidates : List String) : Option String :=
  candidates.find? (fun c => t.cols.contains c)

/-- Candidate names for the policy identifier column (`_build_merged`). -/
def policyCands : List String :=
  ["Policy No", "PolicyNo", "POLICY_NO", "Policy Number"]

/-- Numeric reading of a cell for pandas-style sums: `NaN` is skipped (0),
booleans count 1/0; non-numeric cells are treated as 0 (the model assumes
the summed columns are numeric, as the data is). -/
def toNum (v : Value) : ℚ :=
  match v with
  | .num q => q
  | .bool b => if b then 1 else 0
  | _ => 0

/-- pandas `df[c].sum()` over a list of rows (NaN-skipping). -/
def colSumRows (rows : List Row) (c : String) : ℚ :=
  (rows.map (fun r => toNum (r.get c))).sum

/-- pandas `count` aggregation: number of non-null values of column `c`. -/
def colCountRows (rows : List Row) (c : String) : Nat :=
  rows.countP (fun r => decide (r.get c ≠ Value.null))

/-- The distinct non-null values of column `c`, in first-appearance order.
pandas `groupby` drops null keys (`dropna=True`). -/
def aggKeys (rows : List Row) (c : String) : List Value :=
  ((rows.map (fun r => r.get c)).filter (fun v => decide (v ≠ Value.null))).dedup

/-- The rows of a `groupby(c)` group with key `k`. -/
def groupRows (rows : List Row) (c : String) (k : Value) : List Row :=
  rows.filter (fun r => decide (r.get c = k))

/-- One row of the per-policy aggregate built by `_build_merged`:
`claim_count=size`, and each amount is the column sum when the column exists,
else falls back to the group size (the code's `else (col, 'size')` fallback). -/
structure AggRow where
  key : Value
  claim_count : Nat
  total_claim_amount : ℚ
  total_labor : ℚ
  total_parts : ℚ
deriving DecidableEq, Repr

/-- `claims_df.groupby(claims_policy_col).agg(...)` of `_build_merged`. -/
def claimsAgg (claims : Table) (c : String) : List AggRow :=
  (aggKeys claims.rows c).map (fun k =>
    let g := groupRows claims.rows c k
    { key := k
      claim_count := g.length
      total_claim_amount :=
        if claims.cols.contains "Total Auth Amount" then
          colSumRows g "Total Auth Amount"
        else (g.length : ℚ)
      total_labor :=
        if claims.cols.contains "Labor" then colSumRows g "Labor"
        else (g.length : ℚ)
      total_parts :=
        if claims.cols.contains "Parts" then colSumRows g "Parts"
        else (g.length : ℚ) })

/-- The appended aggregate cells of a merged row that found a match.
`claim_count` is filled/int-cast, `total_claim_amount` filled; `has_claim`
is assigned last (`merged_df['has_claim'] = ... > 0`). -/
def matchedCells (a : AggRow) : List (String × Value) :=
  [("claim_count", Value.num a.claim_count),
   ("total_claim_amount", Value.num a.total_claim_amount),
   ("total_labor", Value.num a.total_labor),
   ("total_parts", Value.num a.total_parts),
   ("has_claim", Value.bool (decide (0 < a.claim_count)))]

/-- The appended cells of a merged row with no matching claims group:
`claim_count`/`total_claim_amount` are `fillna(0)`-ed, `has_claim` is false,
while `total_labor`/`total_parts` are left as NaN (the code never fills them). -/
def unmatchedCells : List (String × Value) :=
  [("claim_count", Value.num 0),
   ("total_claim_amount", Value.num 0),
   ("total_labor", Value.null),
   ("total_parts", Value.null),
   ("has_claim", Value.bool false)]

/-- `DataProcessor._build_merged`, as a pure function of the two working
tables.  When both policy columns resolve: left-join `sales` with the
per-policy claims aggregate (when the two key columns have different names the
right key column is kept, as pandas `merge(left_on, right_on)` does).
Otherwise: degraded view, `sales` plus all-false/zero claim columns. -/
def build_merged (sales claims : Table) : Table :=
  match find_column sales policyCands, find_column claims policyCands with
  | some sc, some cc =>
    let agg := claimsAgg claims cc
    let keyCell : Value → List (String × Value) := fun p =>
      if cc = sc then [] else [(cc, p)]
    { cols := sales.cols ++ (if cc = sc then [] else [cc]) ++
        ["claim_count", "total_claim_amount", "total_labor", "total_parts",
         "has_claim"]
      rows := sales.rows.map (fun r =>
        let p := r.get sc
        match agg.find? (fun a => a.key == p) with
        | some a => ⟨r.cells ++ keyCell p ++ matchedCells a⟩
        | none => ⟨r.cells ++ keyCell Value.null ++ unmatchedCells⟩) }
  | _, _ =>
    { cols := sales.cols ++ ["has_claim", "claim_count", "total_claim_amount"]
      rows := sales.rows.map (fun r =>
        ⟨r.cells ++ [("has_claim", Value.bool false),
                     ("claim_count", Value.num 0),
                     ("total_claim_amount", Value.num 0)]⟩) }

/-! ## Filter pipeline (`DataProcessor._apply_filters`) -/

/-- A declarative filter specification; `none` models a key absent from the
Python filters dict.  Values are the raw strings the HTTP layer passes. -/
structure FilterSpec where
  dealer : Option String := none
  product : Option String := none
  year : Option String := none
  month : Option String := none
  make : Option String := none
  date_from : Option String := none
  date_to : Option String := none
  search : Option String := none
  claim_status : Option String := none
deriving DecidableEq, Repr

/-- Python truthiness of `filters.get(k)` for a string value. -/
def activeS (o : Option String) : Bool :=
  match o with
  | some s => s ≠ ""
  | none => false

/-- An equality dimension whose column is resolved through `_find_column`
(dealer, product).  Sentinel `"All"` and unresolved columns impose nothing. -/
def eqFilterResolved (cands : List String) (o : Option String) (t : Table) :
    Table :=
  match o with
  | some s =>
    if s ≠ "" ∧ s ≠ "All" then
      match find_column t cands with
      | some col =>
        { t with rows := t.rows.filter (fun r => decide (r.get col = Value.str s)) }
      | none => t
    else t
  | none => t

/-- An equality dimension on a fixed column name (make, claim status). -/
def eqFilterFixed (col : String) (o : Option String) (t : Table) : Table :=
  match o with
  | some s =>
    if s ≠ "" ∧ s ≠ "All" then
      if t.cols.contains col then
        { t with rows := t.rows.filter (fun r => decide (r.get col = Value.str s)) }
      else t
    else t
  | none => t

/-- `int(filters['year'])` on the integer-valued strings the UI sends; the
`ValueError` Python would raise on a malformed string is outside the model
(no claim exercises it), malformed strings are read as 0. -/
def intOfS (s : String) : Int := (s.toInt?).getD 0

/-- The year/month dimensions: fixed column, value compared as a number. -/
def numFilterFixed (col : String) (o : Option String) (t : Table) : Table :=
  match o with
  | some s =>
    if s ≠ "" ∧ s ≠ "All" then
      if t.cols.contains col then
        { t with rows :=
            t.rows.filter (fun r => decide (r.get col = Value.num (intOfS s))) }
      else t
    else t
  | none => t

/-- Whether `c` is a decimal digit. -/
def isDigitC (c : Char) : Bool := decide ('0' ≤ c) && decide (c ≤ '9')

/-- Value of a digit character. -/
def digitVal (c : Char) : Nat := c.toNat - '0'.toNat

/-- Reads a non-empty all-digit string as a number. -/
def digitsVal? (l : List Char) : Option Nat :=
  if l ≠ [] ∧ l.all isDigitC then
    some (l.foldl (fun n c => 10 * n + digitVal c) 0)
  else none

/-- `pandas.to_datetime` on a bound / cell string, modelled as an ISO
`YYYY-MM-DD` parser; the result is a single orderable day key. -/
def parseDate (s : String) : Option Nat :=
  match s.toList with
  | [y1, y2, y3, y4, '-', m1, m2, '-', d1, d2] =>
    match digitsVal? [y1, y2, y3, y4], digitsVal? [m1, m2], digitsVal? [d1, d2] with
    | some y, some m, some d =>
      if 1 ≤ m ∧ m ≤ 12 ∧ 1 ≤ d ∧ d ≤ 31 then some (y * 10000 + m * 100 + d)
      else none
    | _, _, _ => none
  | _ => none

/-- `pandas.to_datetime` on one cell: `null` becomes `NaT` (`ok none`, which
every comparison rejects); a string parses or raises; numeric/boolean cells
are modelled as raising (the epoch-number interpretation pandas would apply
to an all-integer column is not modelled — no date column holds numbers). -/
def dateCellKey (v : Value) : Except Unit (Option Nat) :=
  match v with
  | .null => .ok none
  | .str s =>
    match parseDate s with
    | some k => .ok (some k)
    | none => .error ()
  | _ => .error ()

/-- Whether `pd.to_datetime(df[col])` succeeds on the whole column
(`errors='raise'`: a single bad cell fails the conversion). -/
def colParses (rows : List Row) (col : String) : Bool :=
  rows.all (fun r =>
    match dateCellKey (r.get col) with
    | .ok _ => true
    | .error _ => false)

/-- Candidate date columns used by both date bounds. -/
def dateCands : List String := ["Policy Sold Date", "Failure Date"]

/-- The `date_from` dimension: keep rows whose date is `≥` the bound.  The
whole comparison sits in a `try/except: pass`, so an unparseable bound or any
unparseable cell in the column skips the dimension entirely. -/
def dateFromStep (o : Option String) (t : Table) : Table :=
  match o with
  | none => t
  | some b =>
    if b = "" then t
    else
      match find_column t dateCands with
      | none => t
      | some col =>
        match parseDate b with
        | none => t
        | some bk =>
          if colParses t.rows col then
            { t with rows := t.rows.filter (fun r =>
                match dateCellKey (r.get col) with
                | .ok (some k) => decide (bk ≤ k)
                | _ => false) }
          else t

/-- The `date_to` dimension: keep rows whose date is `≤` the bound. -/
def dateToStep (o : Option String) (t : Table) : Table :=
  match o with
  | none => t
  | some b =>
    if b = "" then t
    else
      match find_column t dateCands with
      | none => t
      | some col =>
        match parseDate b with
        | none => t
        | some bk =>
          if colParses t.rows col then
            { t with rows := t.rows.filter (fun r =>
                match dateCellKey (r.get col) with
                | .ok (some k) => decide (k ≤ bk)
                | _ => false) }
          else t

/-- Does `pat` occur at the head of `hay`? -/
def headMatches : List Char → List Char → Bool
  | _, [] => true
  | [], _ :: _ => false
  | h :: hs, p :: ps => h == p && headMatches hs ps

/-- Substring occurrence, Python's `pat in hay` on strings. -/
def subOccurs : List Char → List Char → Bool
  | [], pat => pat.isEmpty
  | h :: t, pat => headMatches (h :: t) pat || subOccurs t pat

/-- `str(v)` of a cell, feeding the free-text search.  Python's float
rendering (`"1.5"`) is approximated by the rational's `toString`; no claim
depends on the exact rendering. -/
def valueStr (v : Value) : String :=
  match v with
  | .num q => toString q
  | .str s => s
  | .bool b => if b then "True" else "False"
  | .null => "nan"

/-- Lower-cased character list of a string. -/
def lowerChars (s : String) : List Char := s.toList.map Char.toLower

/-- The free-text search dimension: case-insensitive substring match against
every cell's string form; a row survives if any cell matches. -/
def searchStep (o : Option String) (t : Table) : Table :=
  match o with
  | none => t
  | some s =>
    if s = "" then t
    else
      { t with rows := t.rows.filter (fun r =>
          r.cells.any (fun p => subOccurs (lowerChars (valueStr p.2)) (lowerChars s))) }

/-- `DataProcessor._apply_filters`: the nine dimensions in source order. -/
def apply_filters (f : FilterSpec) (t : Table) : Table :=
  eqFilterFixed "Claim Status" f.claim_status
    (searchStep f.search
      (dateToStep f.date_to
        (dateFromStep f.date_from
          (eqFilterFixed "Make" f.make
            (numFilterFixed "Month" f.month
              (numFilterFixed "Year" f.year
                (eqFilterResolved ["Product", "Coverage"] f.product
                  (eqFilterResolved ["Dealer", "Dealer AJA"] f.dealer t))))))))

/-! ## Query cache (`_get_cache_key`, `clear_cache`) and session state -/

/-- Canonical cache key: `(method_name, sorted filter items)`, where an absent
or empty filters dict canonicalizes to `none` (`if not filters`). -/
abbrev CacheKey := String × Option (List (String × String))

/-- One `(name, value)` item of the filters dict, if the key is present. -/
def optItem (name : String) (o : Option String) : List (String × String) :=
  match o with
  | some v => [(name, v)]
  | none => []

/-- The items of the filters dict sorted by key (Python
`sorted(filters.items())`); the field names are listed alphabetically. -/
def FilterSpec.items (f : FilterSpec) : List (String × String) :=
  optItem "claim_status" f.claim_status ++ optItem "date_from" f.date_from ++
  optItem "date_to" f.date_to ++ optItem "dealer" f.dealer ++
  optItem "make" f.make ++ optItem "month" f.month ++
  optItem "product" f.product ++ optItem "search" f.search ++
  optItem "year" f.year

/-- `DataProcessor._get_cache_key`.  `none` models Python `None`, and an
all-absent spec models `{}` — both are falsy, giving the `(name, None)` key. -/
def get_cache_key (method : String) (f : Option FilterSpec) : CacheKey :=
  match f with
  | none => (method, none)
  | some spec =>
    if spec.items.isEmpty then (method, none) else (method, some spec.items)

/-- A record result (one element of a `to_dict('records')` list). -/
abbrev Rec := List (String × Value)

/-- A cached query result; the constructors mirror the return types of the
cached operations modelled here.  Keys embed the method name, so a key can
only ever be associated with its own method's constructor. -/
inductive CacheVal where
  | summaryV (v : Rec)
  | monthlyV (v : List Rec)
  | dealersV (v : List Rec)
  | insightsV (v : List Rec)
deriving DecidableEq, Repr

/-- An audit-trail entry (`change_log` item); the wall-clock `timestamp`
field is an external effect and is not modelled. -/
structure ChangeEntry where
  table : String
  row_id : Int
  column : String
  old_value : Value
  new_value : Value
deriving DecidableEq, Repr

/-- The mutable session state of a `DataProcessor` (the `_cached_metrics` /
`_metrics_dirty` pair is set but never read anywhere in the class and is
omitted). -/
structure DPState where
  original_sales_df : Option Table
  original_claims_df : Option Table
  sales_df : Option Table
  claims_df : Option Table
  merged_df : Option Table
  change_log : List ChangeEntry
  query_cache : List (CacheKey × CacheVal)
deriving DecidableEq, Repr

/-- The freshly constructed `DataProcessor()`. -/
def initState : DPState :=
  { original_sales_df := none, original_claims_df := none,
    sales_df := none, claims_df := none, merged_df := none,
    change_log := [], query_cache := [] }

/-- Cache lookup (first binding wins, as later `insertCache` shadows). -/
def lookupCache (c : List (CacheKey × CacheVal)) (k : CacheKey) :
    Option CacheVal :=
  c.lookup k

/-- Cache store (`self._query_cache[key] = value`); prepending shadows any
older binding, which is lookup-equivalent to dict assignment. -/
def insertCache (c : List (CacheKey × CacheVal)) (k : CacheKey)
    (v : CacheVal) : List (CacheKey × CacheVal) :=
  (k, v) :: c

/-- `DataProcessor._build_merged` acting on the session state: a no-op when
either working table is absent. -/
def rebuild_merged (s : DPState) : DPState :=
  match s.sales_df, s.claims_df with
  | some a, some b => { s with merged_df := some (build_merged a b) }
  | _, _ => s

/-- `sales_df.insert(0, '_row_id', range(len(df)))`: the stable synthetic
row identifier column, assigned 0-based at load time. -/
def addRowIds (t : Table) : Table :=
  { cols := "_row_id" :: t.cols
    rows := t.rows.enum.map (fun p => ⟨("_row_id", Value.num p.1) :: p.2.cells⟩) }

/-- `DataProcessor.load_excel` after the external spreadsheet parsing (which
is out of scope): assign row ids, snapshot originals, copy working tables,
clear the cache, rebuild the merged view, empty the change log. -/
def load_tables (salesT claimsT : Table) : DPState :=
  let os := addRowIds salesT
  let oc := addRowIds claimsT
  { original_sales_df := some os, original_claims_df := some oc,
    sales_df := some os, claims_df := some oc,
    merged_df := some (build_merged os oc),
    change_log := [], query_cache := [] }

/-! ## Summary / KPIs (`get_summary`) -/

/-- Python `round(x, n)`, modelled as exact rounding to `n` decimals (the
round-half-even artifacts of binary floats are not modelled). -/
def roundTo (q : ℚ) (n : ℕ) : ℚ := ((round (q * 10 ^ n) : ℤ) : ℚ) / 10 ^ n

/-- Number of distinct non-null values of a column (`nunique`). -/
def colNunique (rows : List Row) (c : String) : Nat :=
  (aggKeys rows c).length

/-- The body of `get_summary` once data is loaded: all KPIs from the filtered
working tables and the filtered merged view. -/
def summaryCompute (salesT claimsT : Table) (merged : Option Table)
    (f : FilterSpec) : Rec :=
  let sales := apply_filters f salesT
  let claims := apply_filters f claimsT
  let total_premium : ℚ :=
    if sales.cols.contains "Gross Premium" then
      colSumRows sales.rows "Gross Premium" else 0
  let total_risk_premium : ℚ :=
    if sales.cols.contains "Risk Premium" then
      colSumRows sales.rows "Risk Premium" else 0
  let total_claims_amount : ℚ :=
    if claims.cols.contains "Total Auth Amount" then
      colSumRows claims.rows "Total Auth Amount" else 0
  let total_policies : ℕ := sales.rows.length
  let total_claims : ℕ := claims.rows.length
  let policies_with_claims : ℕ :=
    match merged with
    | some m =>
      ((apply_filters f m).rows.countP
        (fun r => decide (r.get "has_claim" = Value.bool true)))
    | none => 0
  let claim_rate : ℚ :=
    if 0 < total_policies then
      (policies_with_claims : ℚ) / (total_policies : ℚ) * 100 else 0
  let loss_ratio : ℚ :=
    if 0 < total_premium then total_claims_amount / total_premium * 100 else 0
  let avg_claim_cost : ℚ :=
    if 0 < total_claims then total_claims_amount / (total_claims : ℚ) else 0
  let avg_premium : ℚ :=
    if 0 < total_policies then total_premium / (total_policies : ℚ) else 0
  [("totalPremium", Value.num (roundTo total_premium 2)),
   ("totalRiskPremium", Value.num (roundTo total_risk_premium 2)),
   ("totalClaimsAmount", Value.num (roundTo total_claims_amount 2)),
   ("totalPolicies", Value.num total_policies),
   ("totalClaims", Value.num total_claims),
   ("claimRate", Value.num (roundTo claim_rate 1)),
   ("lossRatio", Value.num (roundTo loss_ratio 1)),
   ("avgClaimCost", Value.num (roundTo avg_claim_cost 2)),
   ("avgPremium", Value.num (roundTo avg_premium 2)),
   ("policiesWithClaims", Value.num policies_with_claims),
   ("uniqueMakes",
    Value.num (if sales.cols.contains "Make" then
      (colNunique sales.rows "Make" : ℚ) else 0))]

/-- `DataProcessor.get_summary`: cache check, `{}` when no data, else compute
and memoize.  (When `sales_df` is loaded but `claims_df` is not — a state no
execution reaches, since loading sets both — Python would raise inside
`_apply_filters`; the model returns `{}` there.) -/
def get_summary (s : DPState) (f : Option FilterSpec) : Rec × DPState :=
  let key := get_cache_key "get_summary" f
  match lookupCache s.query_cache key with
  | some (CacheVal.summaryV v) => (v, s)
  | _ =>
    match s.sales_df, s.claims_df with
    | some st, some ct =>
      let res := summaryCompute st ct s.merged_df (f.getD {})
      (res, { s with query_cache := insertCache s.query_cache key (CacheVal.summaryV res) })
    | _, _ => ([], s)

/-! ## Sorting helpers (pandas `sort_values` / sorted groupby keys) -/

/-- Insert into a sorted list (used by `sortLe`). -/
def insertLe {α : Type} (le : α → α → Bool) (x : α) : List α → List α
  | [] => [x]
  | h :: t => if le x h then x :: h :: t else h :: insertLe le x t

/-- Insertion sort.  pandas' default quicksort is unstable; no claim depends
on the order of ties, so a deterministic insertion sort stands in. -/
def sortLe {α : Type} (le : α → α → Bool) (l : List α) : List α :=
  l.foldr (insertLe le) []

/-- Rank used to order values of different kinds (mixed-kind columns do not
occur in practice; pandas would raise on them). -/
def valueRank (v : Value) : Nat :=
  match v with
  | .num _ => 0
  | .str _ => 1
  | .bool _ => 2
  | .null => 3

/-- Ascending comparison on cell values; `null` sorts last
(`na_position='last'`). -/
def valueLe (a b : Value) : Bool :=
  match a, b with
  | .num p, .num q => decide (p ≤ q)
  | .str s, .str t => decide (s ≤ t)
  | .bool x, .bool y => !x || y
  | .null, .null => true
  | .null, _ => false
  | _, .null => true
  | a', b' => decide (valueRank a' ≤ valueRank b')

/-- Row comparison on a sort column, honouring the sort direction (with
`null` still last in both directions, as pandas keeps `NaN` last). -/
def rowLeOn (col : String) (asc : Bool) (r1 r2 : Row) : Bool :=
  match r1.get col, r2.get col with
  | .null, .null => true
  | .null, _ => false
  | _, .null => true
  | a, b => if asc then valueLe a b else valueLe b a

/-- Lexicographic comparison of (Year, Month) group keys. -/
def pairLe (a b : Value × Value) : Bool :=
  if a.1 = b.1 then valueLe a.2 b.2 else valueLe a.1 b.1

/-! ## Grouped breakdowns (`get_sales_monthly`, `get_sales_dealers`) -/

/-- `str(Month).zfill(2)`. -/
def zfill2 (s : String) : String :=
  if s.length < 2 then String.mk (List.replicate (2 - s.length) '0') ++ s
  else s

/-- pandas `count` of `Policy No` per group, falling back to counting a key
column when `Policy No` is absent (`('Policy No','count') if ... else`). -/
def policiesCount (cols : List String) (g : List Row) (fallback : String) : Nat :=
  if cols.contains "Policy No" then colCountRows g "Policy No"
  else colCountRows g fallback

/-- The body of `get_sales_monthly` once data is loaded: group the filtered
sales by (Year, Month) — null keys dropped — sort ascending, sum premiums,
and emit the zero-padded `period` label. -/
def salesMonthlyCompute (salesT : Table) (f : FilterSpec) : List Rec :=
  let df := apply_filters f salesT
  if df.cols.contains "Year" ∧ df.cols.contains "Month" then
    let keys := ((df.rows.filter (fun r =>
        decide (r.get "Year" ≠ Value.null ∧ r.get "Month" ≠ Value.null))).map
      (fun r => (r.get "Year", r.get "Month"))).dedup
    (sortLe pairLe keys).map (fun k =>
      let g := df.rows.filter (fun r =>
        decide (r.get "Year" = k.1 ∧ r.get "Month" = k.2))
      [("Year", k.1), ("Month", k.2),
       ("premium", Value.num (colSumRows g "Gross Premium")),
       ("riskPremium", Value.num (colSumRows g "Risk Premium")),
       ("policies", Value.num (policiesCount df.cols g "Year")),
       ("period", Value.str (valueStr k.1 ++ "-" ++ zfill2 (valueStr k.2)))])
  else []

/-- `DataProcessor.get_sales_monthly` with its cache discipline. -/
def get_sales_monthly (s : DPState) (f : Option FilterSpec) :
    List Rec × DPState :=
  let key := get_cache_key "get_sales_monthly" f
  match lookupCache s.query_cache key with
  | some (CacheVal.monthlyV v) => (v, s)
  | _ =>
    match s.sales_df with
    | some st =>
      let res := salesMonthlyCompute st (f.getD {})
      (res, { s with query_cache := insertCache s.query_cache key (CacheVal.monthlyV res) })
    | none => ([], s)

/-- Numeric field of a record (`d['k']` on an aggregation record); absent
fields read as 0 (only `d.get('lossRatio', 0)`-style reads rely on it). -/
def recNum (r : Rec) (k : String) : ℚ :=
  match r.lookup k with
  | some v => toNum v
  | none => 0

/-- The body of `get_sales_dealers` once data is loaded: dealer breakdown of
the filtered sales joined with claim metrics from the filtered merged view,
with the zero-guarded `lossRatio`/`claimRate` divisions. -/
def salesDealersCompute (salesT : Table) (merged : Option Table)
    (f : FilterSpec) : List Rec :=
  let df := apply_filters f salesT
  match find_column df ["Dealer"] with
  | none => []
  | some dealer_col =>
    let keys := sortLe valueLe (aggKeys df.rows dealer_col)
    keys.map (fun k =>
      let g := groupRows df.rows dealer_col k
      let base : Rec :=
        [("dealer", k),
         ("premium", Value.num (colSumRows g "Gross Premium")),
         ("riskPremium", Value.num (colSumRows g "Risk Premium")),
         ("policies", Value.num (policiesCount df.cols g dealer_col))]
      match merged with
      | none => base
      | some m =>
        let mf := apply_filters f m
        let mg := groupRows mf.rows dealer_col k
        let claimsCount : ℚ :=
          (mg.countP (fun r => decide (r.get "has_claim" = Value.bool true)) : ℚ)
        let totalClaimAmount : ℚ := colSumRows mg "total_claim_amount"
        let premium : ℚ := colSumRows g "Gross Premium"
        let policies : ℚ := (policiesCount df.cols g dealer_col : ℚ)
        base ++
          [("claimsCount", Value.num claimsCount),
           ("totalClaimAmount", Value.num totalClaimAmount),
           ("lossRatio", Value.num (if 0 < premium then
              roundTo (totalClaimAmount / premium * 100) 1 else 0)),
           ("claimRate", Value.num (if 0 < policies then
              roundTo (claimsCount / policies * 100) 1 else 0))])

/-- `DataProcessor.get_sales_dealers` with its cache discipline. -/
def get_sales_dealers (s : DPState) (f : Option FilterSpec) :
    List Rec × DPState :=
  let key := get_cache_key "get_sales_dealers" f
  match lookupCache s.query_cache key with
  | some (CacheVal.dealersV v) => (v, s)
  | _ =>
    match s.sales_df with
    | some st =>
      let res := salesDealersCompute st s.merged_df (f.getD {})
      (res, { s with query_cache := insertCache s.query_cache key (CacheVal.dealersV res) })
    | none => ([], s)

/-! ## Insights & forecast (`get_insights`) -/

/-- A narrative insight record; mirrors the literal dicts of `get_insights`
(`"type"`, `"title"`, `"description"`, `"metric"`, `"trend"`). -/
structure Insight where
  itype : String
  title : String
  description : String
  metric : String
  trend : String
deriving DecidableEq, Repr

/-- Numeric rendering inside insight descriptions; Python's `,`/`.1f`/`+`
format specifiers are approximated by the rational's `toString` (no claim
reads these strings). -/
def fmtQ (q : ℚ) : String := toString q

/-- `max(l, key=f)`: first element with the maximal key. -/
def maxByQ {α : Type} (f : α → ℚ) : List α → Option α
  | [] => none
  | h :: t => some (t.foldl (fun best x => if f best < f x then x else best) h)

/-- The loss-ratio severity band insight (step 1 of `get_insights`). -/
def lossRatioInsight (lr : ℚ) : Insight :=
  if 80 < lr then
    { itype := "warning", title := "High Loss Ratio Alert"
      description := "Overall loss ratio is " ++ fmtQ lr ++
        "%, which is critical. Review high-risk dealers immediately."
      metric := fmtQ lr ++ "%", trend := "down" }
  else if 60 < lr then
    { itype := "warning", title := "Elevated Loss Ratio"
      description := "Loss ratio of " ++ fmtQ lr ++
        "% is above the healthy threshold of 60%."
      metric := fmtQ lr ++ "%", trend := "neutral" }
  else
    { itype := "success", title := "Healthy Performance"
      description := "Loss ratio of " ++ fmtQ lr ++ "% is within profitable range."
      metric := fmtQ lr ++ "%", trend := "up" }

/-- String field of a record, for the dealer names in descriptions. -/
def recStr (r : Rec) (k : String) : String :=
  match r.lookup k with
  | some v => valueStr v
  | none => ""

/-- The dealer-performance insights (step 2 of `get_insights`). -/
def dealerInsights (dealers : List Rec) : List Insight :=
  if dealers.isEmpty then []
  else
    let major := dealers.filter (fun d => decide (10 < recNum d "policies"))
    match maxByQ (fun d => recNum d "lossRatio") major,
          maxByQ (fun d => recNum d "premium") major with
    | some worst, some best =>
      (if 100 < recNum worst "lossRatio" then
        [{ itype := "danger", title := "Critical Dealer Risk"
           description := "Dealer " ++ recStr worst "dealer" ++ " has " ++
             fmtQ (recNum worst "lossRatio") ++ "% loss ratio."
           metric := fmtQ (recNum worst "lossRatio") ++ "% LR", trend := "down" }]
      else []) ++
      [{ itype := "info", title := "Top Performer"
         description := "Dealer " ++ recStr best "dealer" ++ " leads with " ++
           fmtQ (recNum best "premium") ++ " in premium."
         metric := fmtQ (recNum best "policies") ++ " Policies", trend := "up" }]
    | _, _ => []

/-- The trailing-average forecast insight (step 3 of `get_insights`):
requires ≥ 3 months; mean of the month-over-month growth rates of the last
3 months, transitions with zero prior premium skipped. -/
def forecastInsights (monthly : List Rec) : List Insight :=
  if 3 ≤ monthly.length then
    let last3 := monthly.drop (monthly.length - 3)
    let growth_rates := (last3.zip last3.tail).filterMap (fun pc =>
      let prev := recNum pc.1 "premium"
      if 0 < prev then some ((recNum pc.2 "premium" - prev) / prev) else none)
    let avg_growth : ℚ :=
      if growth_rates.isEmpty then 0
      else growth_rates.sum / (growth_rates.length : ℚ)
    let last_prem := recNum ((monthly.getLast?).getD []) "premium"
    let forecast_prem := last_prem * (1 + avg_growth)
    [{ itype := "forecast", title := "Sales Forecast"
       description := "Based on recent trends, next month's premium is projected to be around " ++
         fmtQ forecast_prem ++ " (" ++ fmtQ (avg_growth * 100) ++ "%)."
       metric := fmtQ forecast_prem
       trend := if 0 < avg_growth then "up" else "down" }]
  else []

/-- An insight as the record the API returns. -/
def Insight.toRec (i : Insight) : Rec :=
  [("type", Value.str i.itype), ("title", Value.str i.title),
   ("description", Value.str i.description), ("metric", Value.str i.metric),
   ("trend", Value.str i.trend)]

/-- `DataProcessor.get_insights`: cache check, empty when no data, else the
loss-ratio band, dealer insights and forecast — threading the state through
the `get_summary` / `get_sales_dealers` / `get_sales_monthly` sub-calls,
which populate their own cache entries. -/
def get_insights (s : DPState) (f : Option FilterSpec) :
    List Rec × DPState :=
  let key := get_cache_key "get_insights" f
  match lookupCache s.query_cache key with
  | some (CacheVal.insightsV v) => (v, s)
  | _ =>
    if s.sales_df.isNone then ([], s)
    else
      let (summary, s1) := get_summary s f
      let lr := recNum summary "lossRatio"
      let (dealers, s2) := get_sales_dealers s1 f
      let (monthly, s3) := get_sales_monthly s2 f
      let res := ([lossRatioInsight lr] ++ dealerInsights dealers ++
        forecastInsights monthly).map Insight.toRec
      (res, { s3 with query_cache := insertCache s3.query_cache key (CacheVal.insightsV res) })

/-! ## Paginated raw view (`get_raw_data`) -/

/-- The return value of `get_raw_data`.  The two early-return branches
(`unknown table` / `no data`) build `{'rows': [], 'total': 0, 'page': 1,
'pages': 0}` with no `columns`/`limit` keys; they are modelled with
`columns := []` and the call's `limit`. -/
structure RawResult where
  rows : List Row
  columns : List String
  total : Nat
  page : Int
  pages : Int
  limit : Int
deriving DecidableEq, Repr

/-- The filtered and optionally sorted frame `get_raw_data` paginates. -/
def rawPipeline (df : Table) (f : Option FilterSpec)
    (sort_by : Option String) (sort_dir : String) : Table :=
  let df1 := apply_filters (f.getD {}) df
  match sort_by with
  | some sb =>
    if sb ≠ "" ∧ df1.cols.contains sb then
      { df1 with rows := sortLe (rowLeOn sb (sort_dir = "asc")) df1.rows }
    else df1
  | none => df1

/-- `DataProcessor.get_raw_data`: dispatch on the table name, filter, sort,
clamp the page into `[1, pages]` with `pages = max(1, ceil(total/limit))`,
slice `[start:start+limit]`, and report the column list without `_row_id`
(the row records themselves are returned verbatim by `to_dict('records')`,
still carrying their `_row_id` cell). -/
def get_raw_data_loaded (df0 : Table) (page limit : Int)
    (f : Option FilterSpec) (sort_by : Option String) (sort_dir : String) :
    RawResult :=
  let df := rawPipeline df0 f sort_by sort_dir
  let total := df.rows.length
  let pages : Int := max 1 (((total : Int) + limit - 1).fdiv limit)
  let page' : Int := max 1 (min page pages)
  let start : Int := (page' - 1) * limit
  { rows := (df.rows.drop start.toNat).take limit.toNat
    columns := df.cols.filter (fun c => decide (c ≠ "_row_id"))
    total := total, page := page', pages := pages, limit := limit }

def get_raw_data (s : DPState) (table : String) (page limit : Int)
    (f : Option FilterSpec) (sort_by : Option String) (sort_dir : String) :
    RawResult :=
  let df? := if table = "sales" then s.sales_df
             else if table = "claims" then s.claims_df
             else none
  match df? with
  | none => { rows := [], columns := [], total := 0, page := 1, pages := 0,
              limit := limit }
  | some df0 => get_raw_data_loaded df0 page limit f sort_by sort_dir

/-! ## Mutation API (`update_cell`, `_validate_value`, `reset_data`) -/

/-- The result dict of `update_cell`: `{'success': True, 'old_value',
'new_value'}` or `{'success': False, 'error'}`. -/
inductive UpdateResult where
  | ok (old_value new_value : Value)
  | err (msg : String)
deriving DecidableEq, Repr

/-- The `success` flag of an update result. -/
def UpdateResult.isOk : UpdateResult → Bool
  | .ok _ _ => true
  | .err _ => false

/-- Per-table whitelist of numeric columns (`_validate_value`). -/
def numericCols (table : String) : List String :=
  if table = "sales" then
    ["Gross Premium", "Risk Premium", "CC", "Cylinder", "Start KM", "End KM",
     "Year", "Month"]
  else if table = "claims" then
    ["Labor", "Parts", "Total Auth Amount", "Claim KM", "CC", "Year", "Month"]
  else []

/-- Legal claim statuses. -/
def validStatuses : List String := ["Approved", "Rejected", "Reversed"]

/-- Sign of a parsed decimal string and its digits. -/
def parseDec (l : List Char) : Option ℚ :=
  match l.splitOn '.' with
  | [ip] => (digitsVal? ip).map (fun n => (n : ℚ))
  | [ip, fp] =>
    match digitsVal? ip, digitsVal? fp with
    | some n, some m => some ((n : ℚ) + (m : ℚ) / (10 ^ fp.length : ℚ))
    | _, _ => none
  | _ => none

/-- Python `float(value)` on the values the model covers: numbers and
booleans coerce, decimal strings (with optional sign) parse, `None` and
other strings raise (`TypeError`/`ValueError`). -/
def pyFloat (v : Value) : Option ℚ :=
  match v with
  | .num q => some q
  | .bool b => some (if b then 1 else 0)
  | .str s =>
    match s.toList with
    | '-' :: rest => (parseDec rest).map Neg.neg
    | l => parseDec l
  | .null => none

/-- Membership of a raw value in the status whitelist (`value not in
valid_statuses` is only ever true-for-strings). -/
def statusOk (v : Value) : Bool :=
  match v with
  | .str s => validStatuses.contains s
  | _ => false

/-- `DataProcessor._validate_value`: numeric coercion with non-negativity on
monetary columns, the claim-status whitelist, everything else unchanged. -/
def validate_value (table column : String) (v : Value) : Except String Value :=
  if (numericCols table).contains column then
    match pyFloat v with
    | some q =>
      if (column = "Gross Premium" ∨ column = "Risk Premium") ∧ q < 0 then
        .error (column ++ " must be >= 0")
      else if (column = "Total Auth Amount" ∨ column = "Labor" ∨
               column = "Parts") ∧ q < 0 then
        .error (column ++ " must be >= 0")
      else .ok (.num q)
    | none => .error (column ++ " must be numeric")
  else if column = "Claim Status" ∧ ¬ statusOk v then
    .error "Claim Status must be one of: ['Approved', 'Rejected', 'Reversed']"
  else .ok v

/-- `DataProcessor._serialize`: unwraps numpy scalars and maps `NaN` to
`None` — the identity in this model (`null` already stands for both). -/
def serialize (v : Value) : Value := v

/-- `df.loc[mask, column] = value` on one row: replace the cell (pandas rows
always carry every column; a structurally missing cell is appended). -/
def setCellRow (r : Row) (col : String) (v : Value) : Row :=
  if (r.cells.lookup col).isSome then
    ⟨r.cells.map (fun p => if p.1 = col then (p.1, v) else p)⟩
  else ⟨r.cells ++ [(col, v)]⟩

/-- The row mask `df['_row_id'] == row_id`. -/
def idMask (row_id : Int) (r : Row) : Bool :=
  decide (r.get "_row_id" = Value.num (row_id : ℚ))

/-- `old_value = df.loc[mask, column].values[0]`: the addressed cell of the
first masked row. -/
def oldOf (df : Table) (row_id : Int) (column : String) : Value :=
  match df.rows.find? (idMask row_id) with
  | some r => r.get column
  | none => Value.null

/-- `df.loc[mask, column] = validated_value`: every masked row's cell is
overwritten (with unique row ids, exactly one). -/
def updatedTable (df : Table) (row_id : Int) (column : String) (val : Value) :
    Table :=
  { df with rows := df.rows.map (fun r =>
      if idMask row_id r then setCellRow r column val else r) }

/-- `update_cell` once the addressed working table is loaded. -/
def update_cell_loaded (s : DPState) (table : String) (row_id : Int)
    (column : String) (new_value : Value) (df : Table) :
    UpdateResult × DPState :=
  if ¬ df.cols.contains column then
    (.err ("Column " ++ column ++ " not found"), s)
  else if column = "_row_id" then
    (.err "Cannot edit row ID", s)
  else if ¬ df.rows.any (idMask row_id) then
    (.err ("Row " ++ toString row_id ++ " not found"), s)
  else
    let old := oldOf df row_id column
    match validate_value table column new_value with
    | .error e => (.err e, s)
    | .ok val =>
      let newT := updatedTable df row_id column val
      let s1 := if table = "sales" then { s with sales_df := some newT }
                else { s with claims_df := some newT }
      let s2 := { s1 with query_cache := [] }
      let s3 := { s2 with change_log := s2.change_log ++
        [{ table := table, row_id := row_id, column := column,
           old_value := serialize old, new_value := serialize val }] }
      (.ok (serialize old) (serialize val), rebuild_merged s3)

/-- `DataProcessor.update_cell`: `table == 'sales'` addresses the sales
working table, anything else the claims one (the code's
`sales_df if table == 'sales' else claims_df`). -/
def update_cell (s : DPState) (table : String) (row_id : Int)
    (column : String) (new_value : Value) : UpdateResult × DPState :=
  match (if table = "sales" then s.sales_df else s.claims_df) with
  | none => (.err "No data loaded", s)
  | some df => update_cell_loaded s table row_id column new_value df

/-- The result dict of `reset_data`. -/
inductive ResetResult where
  | ok (changesReverted : Nat)
  | err (msg : String)
deriving DecidableEq, Repr

/-- `DataProcessor.reset_data`: working tables back to the original
snapshots, merged view rebuilt, cache invalidated, change log emptied, the
number of reverted changes returned.  (With `original_claims_df` absent —
unreachable after a load — Python would raise on `.copy()`; the model keeps
`none`.) -/
def reset_data (s : DPState) : ResetResult × DPState :=
  match s.original_sales_df with
  | none => (.err "No data loaded", s)
  | some os =>
    let s1 := { s with sales_df := some os, claims_df := s.original_claims_df }
    let s2 := rebuild_merged s1
    let s3 := { s2 with query_cache := [] }
    (.ok s3.change_log.length, { s3 with change_log := [] })

/-! ## Association-list and grouping lemmas -/

theorem lookup_append_of_none {k : String} {l1 l2 : List (String × Value)}
    (h : l1.lookup k = none) : (l1 ++ l2).lookup k = l2.lookup k := by
  induction l1 with
  | nil => rfl
  | cons a t ih =>
    simp only [List.lookup, List.cons_append] at h ⊢
    cases hk : (k == a.1) with
    | true => simp [hk] at h
    | false => simp only [hk] at h ⊢; exact ih h

theorem lookup_append_of_some {k : String} {v : Value}
    {l1 l2 : List (String × Value)} (h : l1.lookup k = some v) :
    (l1 ++ l2).lookup k = some v := by
  induction l1 with
  | nil => simp [List.lookup] at h
  | cons a t ih =>
    simp only [List.lookup, List.cons_append] at h ⊢
    cases hk : (k == a.1) with
    | true => simpa [hk] using h
    | false => simp only [hk] at h ⊢; exact ih h

/-- `Row.get` on explicit cells. -/
theorem Row.get_mk (cells : List (String × Value)) (c : String) :
    Row.get ⟨cells⟩ c = match cells.lookup c with
      | some v => v
      | none => Value.null := rfl

/-- Whether a claims row belongs to the policy of a sales row: a missing
(policy) value is not shared with anything — pandas drops null group keys
and null join keys do not match. -/
def sharesPolicy (p v : Value) : Bool :=
  decide (p ≠ Value.null) && decide (v = p)

theorem mem_aggKeys {rows : List Row} {c : String} {p : Value} :
    p ∈ aggKeys rows c ↔ p ≠ Value.null ∧ ∃ r ∈ rows, r.get c = p := by
  simp only [aggKeys, List.mem_dedup, List.mem_filter, List.mem_map,
    decide_eq_true_eq]
  constructor
  · rintro ⟨⟨r, hr, hrp⟩, hnn⟩
    exact ⟨hnn, r, hr, hrp⟩
  · rintro ⟨hnn, r, hr, hrp⟩
    exact ⟨⟨r, hr, hrp⟩, hnn⟩

theorem countP_sharesPolicy (rows : List Row) (c : String) (p : Value) :
    rows.countP (fun cr => sharesPolicy p (cr.get c)) =
      if p = Value.null then 0 else (groupRows rows c p).length := by
  by_cases hp : p = Value.null
  · subst hp
    simp [sharesPolicy, List.countP_eq_length_filter]
  · rw [if_neg hp, groupRows, ← List.countP_eq_length_filter]
    apply List.countP_congr
    intro r _
    simp [sharesPolicy, hp]

theorem filter_sharesPolicy (rows : List Row) (c : String) (p : Value)
    (hp : p ≠ Value.null) :
    rows.filter (fun cr => sharesPolicy p (cr.get c)) = groupRows rows c p := by
  rw [groupRows]
  apply List.filter_congr
  intro r _
  simp [sharesPolicy, hp]

/-- `find?` over a keyed map hits exactly the searched key. -/
theorem find?_map_keyed (p : Value) (f : Value → AggRow)
    (hf : ∀ k, (f k).key = k) :
    ∀ l : List Value, (l.map f).find? (fun a => a.key == p) =
      if p ∈ l then some (f p) else none := by
  intro l
  induction l with
  | nil => simp
  | cons k t ih =>
    simp only [List.map_cons, List.find?, hf]
    by_cases hk : k = p
    · subst hk
      simp
    · have hb : (k == p) = false := by simp [hk]
      have hpk : ¬ p = k := fun h => hk h.symm
      simp [hb, ih, hpk]

theorem claimsAgg_find (claims : Table) (cc : String) (p : Value) :
    (claimsAgg claims cc).find? (fun a => a.key == p) =
      if p ∈ aggKeys claims.rows cc then
        some { key := p
               claim_count := (groupRows claims.rows cc p).length
               total_claim_amount :=
                 if claims.cols.contains "Total Auth Amount" then
                   colSumRows (groupRows claims.rows cc p) "Total Auth Amount"
                 else ((groupRows claims.rows cc p).length : ℚ)
               total_labor :=
                 if claims.cols.contains "Labor" then
                   colSumRows (groupRows claims.rows cc p) "Labor"
                 else ((groupRows claims.rows cc p).length : ℚ)
               total_parts :=
                 if claims.cols.contains "Parts" then
                   colSumRows (groupRows claims.rows cc p) "Parts"
                 else ((groupRows claims.rows cc p).length : ℚ) }
      else none := by
  exact find?_map_keyed p _ (fun k => rfl) (aggKeys claims.rows cc)


/-- `Row.get` skips two leading cell blocks in which the key does not occur. -/
theorem get_append2 (cells mid post : List (String × Value)) (k : String)
    (h1 : cells.lookup k = none) (h2 : mid.lookup k = none) :
    Row.get ⟨cells ++ mid ++ post⟩ k = Row.get ⟨post⟩ k := by
  simp only [Row.get_mk]
  rw [List.append_assoc, lookup_append_of_none h1, lookup_append_of_none h2]

/-- Shape of a merged row in the resolved-join branch. -/
theorem build_merged_row (sales claims : Table) (sc cc : String)
    (hsc : find_column sales policyCands = some sc)
    (hcc : find_column claims policyCands = some cc)
    (i : Nat) (r : Row) (hir : sales.rows[i]? = some r) :
    (build_merged sales claims).rows[i]? = some (
      match (claimsAgg claims cc).find? (fun a => a.key == r.get sc) with
      | some a =>
        ⟨r.cells ++ (if cc = sc then [] else [(cc, r.get sc)]) ++ matchedCells a⟩
      | none =>
        ⟨r.cells ++ (if cc = sc then [] else [(cc, Value.null)]) ++ unmatchedCells⟩) := by
  simp only [build_merged, hsc, hcc, List.getElem?_map, hir, Option.map_some']

/-- The optional right-hand key cell never holds the aggregate column names. -/
theorem keyCell_lookup_none (cc sc : String) (p : Value) (k : String)
    (hk : k ≠ cc) :
    (if cc = sc then ([] : List (String × Value)) else [(cc, p)]).lookup k
      = none := by
  by_cases hcs : cc = sc
  · simp [hcs]
  · have hb : (k == cc) = false := beq_eq_false_iff_ne.mpr hk
    simp [hcs, List.lookup, hb]

/-- C1: when the policy column resolves on both sides, the merged view has
one row per sales row, whose `claim_count` is the number of claims rows
sharing its (non-missing) policy id, whose `total_claim_amount` is the sum
of their `Total Auth Amount` values (when that column exists), zero when
there are none, and whose `has_claim` holds exactly when `claim_count > 0`;
when either side fails to resolve, the merged view is the sales table with
`has_claim=false`, `claim_count=0`, `total_claim_amount=0` appended to every
row — and `build_merged` is total, so building never fails.  The per-row
part assumes the sales row does not already carry cells named like the
appended aggregate columns (pandas would suffix-rename such collisions). -/
theorem build_merged_spec (sales claims : Table) :
    (∀ sc cc, find_column sales policyCands = some sc →
      find_column claims policyCands = some cc →
      (build_merged sales claims).rows.length = sales.rows.length ∧
      (∀ (i : Nat) (r : Row), sales.rows[i]? = some r →
        r.cells.lookup "claim_count" = none →
        r.cells.lookup "total_claim_amount" = none →
        r.cells.lookup "has_claim" = none →
        ∃ mr, (build_merged sales claims).rows[i]? = some mr ∧
          mr.get "claim_count" =
            Value.num (claims.rows.countP
              (fun cr => sharesPolicy (r.get sc) (cr.get cc))) ∧
          (claims.cols.contains "Total Auth Amount" = true →
            mr.get "total_claim_amount" =
              Value.num (colSumRows (claims.rows.filter
                (fun cr => sharesPolicy (r.get sc) (cr.get cc)))
                "Total Auth Amount")) ∧
          (claims.rows.countP
              (fun cr => sharesPolicy (r.get sc) (cr.get cc)) = 0 →
            mr.get "total_claim_amount" = Value.num 0) ∧
          mr.get "has_claim" =
            Value.bool (decide (0 < claims.rows.countP
              (fun cr => sharesPolicy (r.get sc) (cr.get cc)))))) ∧
    ((find_column sales policyCands = none ∨
      find_column claims policyCands = none) →
      (build_merged sales claims).rows = sales.rows.map (fun r =>
        ⟨r.cells ++ [("has_claim", Value.bool false),
                     ("claim_count", Value.num 0),
                     ("total_claim_amount", Value.num 0)]⟩)) := by
  constructor
  · intro sc cc hsc hcc
    have hccmem : cc ∈ policyCands := List.mem_of_find?_eq_some hcc
    simp only [policyCands, List.mem_cons, List.not_mem_nil, or_false]
      at hccmem
    have hcc1 : cc ≠ "claim_count" := by
      rcases hccmem with rfl | rfl | rfl | rfl <;> decide
    have hcc2 : cc ≠ "total_claim_amount" := by
      rcases hccmem with rfl | rfl | rfl | rfl <;> decide
    have hcc3 : cc ≠ "has_claim" := by
      rcases hccmem with rfl | rfl | rfl | rfl <;> decide
    refine ⟨by simp [build_merged, hsc, hcc], ?_⟩
    intro i r hir h1 h2 h3
    have hrow := build_merged_row sales claims sc cc hsc hcc i r hir
    set p := r.get sc with hp
    set cnt := claims.rows.countP (fun cr => sharesPolicy p (cr.get cc))
      with hcnt
    by_cases hmem : p ∈ aggKeys claims.rows cc
    · -- matched: the aggregate row for `p` exists
      obtain ⟨hnn, cr0, hcr0, hcr0p⟩ := mem_aggKeys.mp hmem
      have hg : cr0 ∈ groupRows claims.rows cc p := by
        simp [groupRows, List.mem_filter, hcr0, hcr0p]
      have hglen : 0 < (groupRows claims.rows cc p).length :=
        List.length_pos.mpr (List.ne_nil_of_mem hg)
      have hcnteq : cnt = (groupRows claims.rows cc p).length := by
        rw [hcnt, countP_sharesPolicy, if_neg hnn]
      rw [claimsAgg_find claims cc p, if_pos hmem] at hrow
      refine ⟨_, hrow, ?_, ?_, ?_, ?_⟩
      · rw [get_append2 _ _ _ _ h1
          (keyCell_lookup_none cc sc p _ (fun h => hcc1 h.symm))]
        show Value.num _ = _
        rw [hcnteq]
      · intro hta
        rw [get_append2 _ _ _ _ h2
          (keyCell_lookup_none cc sc p _ (fun h => hcc2 h.symm))]
        show Value.num _ = _
        rw [filter_sharesPolicy claims.rows cc p hnn, if_pos hta]
      · intro h0
        exact absurd (h0 ▸ hcnteq) (by omega)
      · rw [get_append2 _ _ _ _ h3
          (keyCell_lookup_none cc sc p _ (fun h => hcc3 h.symm))]
        show Value.bool _ = _
        rw [hcnteq]
    · -- unmatched: no aggregate row, zero-filled cells
      have hcnt0 : cnt = 0 := by
        rw [hcnt, List.countP_eq_zero]
        intro cr hcr
        simp only [sharesPolicy, Bool.and_eq_true, decide_eq_true_eq, not_and]
        intro hnn hcp
        exact hmem (mem_aggKeys.mpr ⟨hnn, cr, hcr, hcp⟩)
      have hfil : claims.rows.filter (fun cr => sharesPolicy p (cr.get cc))
          = [] := by
        rw [← List.length_eq_zero, ← List.countP_eq_length_filter]
        exact hcnt0
      rw [claimsAgg_find claims cc p, if_neg hmem] at hrow
      refine ⟨_, hrow, ?_, ?_, ?_, ?_⟩
      · rw [get_append2 _ _ _ _ h1
          (keyCell_lookup_none cc sc Value.null _ (fun h => hcc1 h.symm))]
        rw [hcnt0]
        rfl
      · intro _
        rw [get_append2 _ _ _ _ h2
          (keyCell_lookup_none cc sc Value.null _ (fun h => hcc2 h.symm))]
        rw [hfil]
        rfl
      · intro _
        rw [get_append2 _ _ _ _ h2
          (keyCell_lookup_none cc sc Value.null _ (fun h => hcc2 h.symm))]
        rfl
      · rw [get_append2 _ _ _ _ h3
          (keyCell_lookup_none cc sc Value.null _ (fun h => hcc3 h.symm))]
        rw [hcnt0]
        rfl
  · intro h
    rcases h with h | h
    · simp [build_merged, h]
    · rcases hfs : find_column sales policyCands with _ | sc <;>
        simp [build_merged, hfs, h]

/-- Sales fixture row: policy A. -/
def rowA : Row :=
  ⟨[("Policy No", Value.str "A"), ("Dealer", Value.str "D1"),
    ("Gross Premium", Value.num 100)]⟩

/-- Sales fixture row: policy B. -/
def rowB : Row :=
  ⟨[("Policy No", Value.str "B"), ("Dealer", Value.str "D1"),
    ("Gross Premium", Value.num 200)]⟩

/-- Sales fixture row: policy C. -/
def rowC : Row :=
  ⟨[("Policy No", Value.str "C"), ("Dealer", Value.str "D2"),
    ("Gross Premium", Value.num 300)]⟩

/-- Synthetic sales fixture: 3 policies A, B, C. -/
def salesABC : Table :=
  { cols := ["Policy No", "Dealer", "Gross Premium"]
    rows := [rowA, rowB, rowC] }

/-- Synthetic claims fixture: policy A has two claims summing to 150. -/
def claimsABC : Table :=
  { cols := ["Policy No", "Total Auth Amount"]
    rows :=
      [⟨[("Policy No", Value.str "A"), ("Total Auth Amount", Value.num 100)]⟩,
       ⟨[("Policy No", Value.str "A"), ("Total Auth Amount", Value.num 50)]⟩] }

/-- Witness for C1 at the spec's 3-policy fixture: policy A reports
`claim_count=2`, `total_claim_amount=150`, `has_claim=true`; B and C report
zeros and `has_claim=false`. -/
theorem build_merged_spec_witness :
    ((build_merged salesABC claimsABC).rows[0]?.map
        (fun mr => (mr.get "claim_count", mr.get "total_claim_amount",
                    mr.get "has_claim")) =
      some (Value.num 2, Value.num 150, Value.bool true)) ∧
    ((build_merged salesABC claimsABC).rows[1]?.map
        (fun mr => (mr.get "claim_count", mr.get "total_claim_amount",
                    mr.get "has_claim")) =
      some (Value.num 0, Value.num 0, Value.bool false)) ∧
    ((build_merged salesABC claimsABC).rows[2]?.map
        (fun mr => (mr.get "claim_count", mr.get "total_claim_amount",
                    mr.get "has_claim")) =
      some (Value.num 0, Value.num 0, Value.bool false)) := by
  obtain ⟨-, hrows⟩ := (build_merged_spec salesABC claimsABC).1 "Policy No"
    "Policy No" (by decide) (by decide)
  refine ⟨?_, ?_, ?_⟩
  · obtain ⟨mr, hmr, hcount, hsum, -, hhas⟩ :=
      hrows 0 rowA (by decide) (by decide) (by decide) (by decide)
    rw [hmr, Option.map_some', hcount, hsum (by decide), hhas]
    have hfil : claimsABC.rows.filter
        (fun cr => sharesPolicy (rowA.get "Policy No") (cr.get "Policy No"))
        = claimsABC.rows := by decide
    have hcnt : claimsABC.rows.countP
        (fun cr => sharesPolicy (rowA.get "Policy No") (cr.get "Policy No"))
        = 2 := by decide
    rw [hfil, hcnt]
    have hmap : claimsABC.rows.map (fun r => toNum (r.get "Total Auth Amount"))
        = [100, 50] := by decide
    simp only [colSumRows]
    rw [hmap]
    norm_num
  · obtain ⟨mr, hmr, hcount, hsum, -, hhas⟩ :=
      hrows 1 rowB (by decide) (by decide) (by decide) (by decide)
    rw [hmr, Option.map_some', hcount, hsum (by decide), hhas]
    have hfil : claimsABC.rows.filter
        (fun cr => sharesPolicy (rowB.get "Policy No") (cr.get "Policy No"))
        = [] := by decide
    have hcnt : claimsABC.rows.countP
        (fun cr => sharesPolicy (rowB.get "Policy No") (cr.get "Policy No"))
        = 0 := by decide
    rw [hfil, hcnt]
    norm_num [colSumRows]
  · obtain ⟨mr, hmr, hcount, hsum, -, hhas⟩ :=
      hrows 2 rowC (by decide) (by decide) (by decide) (by decide)
    rw [hmr, Option.map_some', hcount, hsum (by decide), hhas]
    have hfil : claimsABC.rows.filter
        (fun cr => sharesPolicy (rowC.get "Policy No") (cr.get "Policy No"))
        = [] := by decide
    have hcnt : claimsABC.rows.countP
        (fun cr => sharesPolicy (rowC.get "Policy No") (cr.get "Policy No"))
        = 0 := by decide
    rw [hfil, hcnt]
    norm_num [colSumRows]

/-- C2: `update_cell` on a loaded table fails — returning the error as a
result value and leaving the whole session state untouched — with a
column-not-found error when the column is absent, an immutable-column error
when the column is `_row_id`, a row-not-found error when no working row
carries the id, and the validator's error when it rejects the value. -/
theorem update_cell_failure_spec (s : DPState) (table : String) (rid : Int)
    (col : String) (v : Value) (df : Table)
    (hdf : (if table = "sales" then s.sales_df else s.claims_df) = some df) :
    (df.cols.contains col = false →
      update_cell s table rid col v =
        (.err ("Column " ++ col ++ " not found"), s)) ∧
    (df.cols.contains col = true → col = "_row_id" →
      update_cell s table rid col v = (.err "Cannot edit row ID", s)) ∧
    (df.cols.contains col = true → col ≠ "_row_id" →
      df.rows.any (idMask rid) = false →
      update_cell s table rid col v =
        (.err ("Row " ++ toString rid ++ " not found"), s)) ∧
    (∀ e, df.cols.contains col = true → col ≠ "_row_id" →
      df.rows.any (idMask rid) = true →
      validate_value table col v = .error e →
      update_cell s table rid col v = (.err e, s)) := by
  unfold update_cell
  rw [hdf]
  refine ⟨?_, ?_, ?_, ?_⟩
  · intro h
    have hmem : col ∉ df.cols := by simpa using h
    simp [update_cell_loaded, hmem]
  · intro h hcol
    subst hcol
    have hmem : ("_row_id" : String) ∈ df.cols := by simpa using h
    simp [update_cell_loaded, hmem]
  · intro h hcol hany
    have hmem : col ∈ df.cols := by simpa using h
    simp [update_cell_loaded, hmem, hcol, hany]
  · intro e h hcol hany hval
    have hmem : col ∈ df.cols := by simpa using h
    simp [update_cell_loaded, hmem, hcol, hany, hval]

/-- Witness for C2 at a loaded fixture: the spec's example
`update_cell('sales', 0, 'Gross Premium', -5)` is rejected by the validator
and the state is returned unchanged. -/
theorem update_cell_failure_spec_witness :
    update_cell (load_tables salesABC claimsABC) "sales" 0 "Gross Premium"
        (Value.num (-5)) =
      (.err "Gross Premium must be >= 0", load_tables salesABC claimsABC) := by
  exact (update_cell_failure_spec (load_tables salesABC claimsABC) "sales" 0
    "Gross Premium" (Value.num (-5)) (addRowIds salesABC) (by decide)).2.2.2
    "Gross Premium must be >= 0" (by decide) (by decide) (by decide) (by rfl)

/-- `rebuild_merged` touches only the merged view. -/
theorem rebuild_merged_fields (s : DPState) :
    (rebuild_merged s).original_sales_df = s.original_sales_df ∧
    (rebuild_merged s).original_claims_df = s.original_claims_df ∧
    (rebuild_merged s).sales_df = s.sales_df ∧
    (rebuild_merged s).claims_df = s.claims_df ∧
    (rebuild_merged s).change_log = s.change_log ∧
    (rebuild_merged s).query_cache = s.query_cache := by
  rcases hs : s.sales_df with _ | a <;> rcases hc : s.claims_df with _ | b <;>
    simp [rebuild_merged, hs, hc]

/-- `update_cell` dispatch: no table loaded. -/
theorem update_cell_df_none (s : DPState) (table : String) (rid : Int)
    (col : String) (v : Value)
    (hdf : (if table = "sales" then s.sales_df else s.claims_df) = none) :
    update_cell s table rid col v = (.err "No data loaded", s) := by
  unfold update_cell
  rw [hdf]

/-- `update_cell` dispatch: the addressed table is loaded. -/
theorem update_cell_df_some (s : DPState) (table : String) (rid : Int)
    (col : String) (v : Value) (df : Table)
    (hdf : (if table = "sales" then s.sales_df else s.claims_df) = some df) :
    update_cell s table rid col v = update_cell_loaded s table rid col v df := by
  unfold update_cell
  rw [hdf]

/-- Inversion of a successful `update_cell`: the guards all passed, the
validator accepted, and the successor state is the one-table update with the
cache cleared, one change-log entry appended, everything else untouched. -/
theorem update_cell_ok_inv (s : DPState) (table : String) (rid : Int)
    (col : String) (v : Value) (res : UpdateResult) (s' : DPState)
    (hup : update_cell s table rid col v = (res, s'))
    (hok : res.isOk = true) :
    ∃ df val,
      (if table = "sales" then s.sales_df else s.claims_df) = some df ∧
      validate_value table col v = .ok val ∧
      df.rows.any (idMask rid) = true ∧
      col ∈ df.cols ∧ col ≠ "_row_id" ∧
      res = .ok (serialize (oldOf df rid col)) (serialize val) ∧
      s'.query_cache = [] ∧
      s'.change_log = s.change_log ++
        [{ table := table, row_id := rid, column := col,
           old_value := serialize (oldOf df rid col),
           new_value := serialize val }] ∧
      s'.original_sales_df = s.original_sales_df ∧
      s'.original_claims_df = s.original_claims_df ∧
      (if table = "sales"
        then s'.sales_df = some (updatedTable df rid col val) ∧
             s'.claims_df = s.claims_df
        else s'.claims_df = some (updatedTable df rid col val) ∧
             s'.sales_df = s.sales_df) := by
  have kill : ∀ msg : String, (UpdateResult.err msg, s) = (res, s') → False := by
    intro msg h
    obtain ⟨h1, -⟩ := Prod.mk.inj h
    rw [← h1] at hok
    simp [UpdateResult.isOk] at hok
  rcases hdf : (if table = "sales" then s.sales_df else s.claims_df) with _ | df
  · rw [update_cell_df_none s table rid col v hdf] at hup
    exact (kill _ hup).elim
  · rw [update_cell_df_some s table rid col v df hdf] at hup
    unfold update_cell_loaded at hup
    by_cases h1 : df.cols.contains col
    · by_cases h2 : col = "_row_id"
      · rw [if_neg (by simpa using h1), if_pos h2] at hup
        exact (kill _ hup).elim
      · by_cases h3 : df.rows.any (idMask rid)
        · rcases hval : validate_value table col v with e | val
          · rw [if_neg (by simpa using h1), if_neg h2,
              if_neg (by simpa using h3)] at hup
            simp only [hval] at hup
            exact (kill _ hup).elim
          · rw [if_neg (by simpa using h1), if_neg h2,
              if_neg (by simpa using h3)] at hup
            simp only [hval] at hup
            obtain ⟨hres, hs'⟩ := Prod.mk.inj hup
            refine ⟨df, val, rfl, rfl, h3, by simpa using h1, h2,
              hres.symm, ?_, ?_, ?_, ?_, ?_⟩ <;>
              rw [← hs'] <;>
              obtain ⟨ho1, ho2, hsd, hcd, hlog, hq⟩ := rebuild_merged_fields
                ((if table = "sales"
                  then { s with sales_df := some (updatedTable df rid col val) }
                  else { s with claims_df := some (updatedTable df rid col val) })
                  |> fun s1 => { s1 with query_cache := [] }
                  |> fun s2 => { s2 with change_log := s2.change_log ++
                      [{ table := table, row_id := rid, column := col,
                         old_value := serialize (oldOf df rid col),
                         new_value := serialize val }] })
            · by_cases ht : table = "sales" <;> simp_all
            · by_cases ht : table = "sales" <;> simp_all
            · by_cases ht : table = "sales" <;> simp_all
            · by_cases ht : table = "sales" <;> simp_all
            · by_cases ht : table = "sales" <;> simp_all
        · rw [if_neg (by simpa using h1), if_neg h2,
            if_pos (by simpa using h3)] at hup
          exact (kill _ hup).elim
    · rw [if_pos (by simpa using h1)] at hup
      exact (kill _ hup).elim

/-- C3: every accepted `update_cell` (and every reset on loaded data) clears
the whole query cache — no entry survives, every `(operation, FilterSpec)`
key misses — so the next `get_summary` call recomputes from the current
tables rather than serving a stale cached value. -/
theorem cache_invalidation_spec (s : DPState) (table : String) (rid : Int)
    (col : String) (v : Value) (res : UpdateResult) (s' : DPState)
    (hup : update_cell s table rid col v = (res, s'))
    (hok : res.isOk = true) :
    s'.query_cache = [] ∧
    (∀ (op : String) (f : Option FilterSpec),
      lookupCache s'.query_cache (get_cache_key op f) = none) ∧
    (∀ (f : Option FilterSpec) (st ct : Table), s'.sales_df = some st →
      s'.claims_df = some ct →
      (get_summary s' f).1 = summaryCompute st ct s'.merged_df (f.getD {})) ∧
    (∀ os : Table, s.original_sales_df = some os →
      (reset_data s).2.query_cache = []) := by
  obtain ⟨df, val, -, -, -, -, -, -, hq, -⟩ :=
    update_cell_ok_inv s table rid col v res s' hup hok
  refine ⟨hq, ?_, ?_, ?_⟩
  · intro op f
    simp [lookupCache, hq]
  · intro f st ct hst hct
    simp [get_summary, lookupCache, hq, hst, hct, List.lookup]
  · intro os hos
    simp [reset_data, hos]

/-- Witness for C3: a concrete accepted update on the loaded fixture leaves
an empty query cache. -/
theorem cache_invalidation_spec_witness :
    (update_cell (load_tables salesABC claimsABC) "sales" 0 "Gross Premium"
      (Value.num 5)).2.query_cache = [] :=
  (cache_invalidation_spec (load_tables salesABC claimsABC) "sales" 0
    "Gross Premium" (Value.num 5)
    (update_cell (load_tables salesABC claimsABC) "sales" 0 "Gross Premium"
      (Value.num 5)).1
    (update_cell (load_tables salesABC claimsABC) "sales" 0 "Gross Premium"
      (Value.num 5)).2
    rfl (by rfl)).1

/-- Reads the cell at `(row_id, col)` of a table (first row matching the id
mask), as the Data Manager does through `get_raw_data`/`update_cell`. -/
def readCellT (t : Table) (rid : Int) (c : String) : Option Value :=
  (t.rows.find? (idMask rid)).map (fun r => r.get c)

/-- Reads a cell of the addressed working table. -/
def readWorkingCell (s : DPState) (table : String) (rid : Int) (c : String) :
    Option Value :=
  match (if table = "sales" then s.sales_df else s.claims_df) with
  | some t => readCellT t rid c
  | none => none

/-- Reads a cell of the addressed original snapshot. -/
def readOriginalCell (s : DPState) (table : String) (rid : Int) (c : String) :
    Option Value :=
  match (if table = "sales" then s.original_sales_df
         else s.original_claims_df) with
  | some t => readCellT t rid c
  | none => none

/-- C4: after a successful `update_cell` followed by `reset_data`, reading
the edited cell yields the original (pre-edit, when the cell had not been
edited before) value; the change log is empty after the reset; and
`reset_data` returns the number of change-log entries that existed
immediately before the reset. -/
theorem reset_round_trip_spec (s : DPState) (table : String) (rid : Int)
    (col : String) (v : Value) (res1 : UpdateResult) (s1 : DPState)
    (os oc : Table)
    (hos : s.original_sales_df = some os)
    (hoc : s.original_claims_df = some oc)
    (hup : update_cell s table rid col v = (res1, s1))
    (hok : res1.isOk = true) :
    (reset_data s1).1 = ResetResult.ok s1.change_log.length ∧
    (reset_data s1).2.change_log = [] ∧
    (reset_data s1).2.sales_df = s.original_sales_df ∧
    (reset_data s1).2.claims_df = s.original_claims_df ∧
    readWorkingCell (reset_data s1).2 table rid col =
      readOriginalCell s table rid col ∧
    (readWorkingCell s table rid col = readOriginalCell s table rid col →
      readWorkingCell (reset_data s1).2 table rid col =
        readWorkingCell s table rid col) := by
  obtain ⟨df, val, hdf, hval, hany, hmem, hne, hres, hq, hlog, ho1, ho2, hifs⟩ :=
    update_cell_ok_inv s table rid col v res1 s1 hup hok
  have hos1 : s1.original_sales_df = some os := by rw [ho1, hos]
  have hoc1 : s1.original_claims_df = some oc := by rw [ho2, hoc]
  have h1 : (reset_data s1).1 = ResetResult.ok s1.change_log.length := by
    simp [reset_data, hos1, hoc1, rebuild_merged]
  have h2 : (reset_data s1).2.change_log = [] := by
    simp [reset_data, hos1, hoc1, rebuild_merged]
  have h3 : (reset_data s1).2.sales_df = some os := by
    simp [reset_data, hos1, hoc1, rebuild_merged]
  have h4 : (reset_data s1).2.claims_df = some oc := by
    simp [reset_data, hos1, hoc1, rebuild_merged]
  have h5 : readWorkingCell (reset_data s1).2 table rid col =
      readOriginalCell s table rid col := by
    by_cases ht : table = "sales" <;>
      simp [readWorkingCell, readOriginalCell, ht, h3, h4, hos, hoc]
  exact ⟨h1, h2, hos ▸ h3, hoc ▸ h4, h5, fun hpre => h5.trans hpre.symm⟩

/-- Witness for C4 at the loaded fixture: edit `Gross Premium`, reset, and
the change log is empty while the cell reads its pre-edit value again. -/
theorem reset_round_trip_spec_witness :
    (reset_data (update_cell (load_tables salesABC claimsABC) "sales" 0
        "Gross Premium" (Value.num 5)).2).2.change_log = [] ∧
    readWorkingCell (reset_data (update_cell (load_tables salesABC claimsABC)
        "sales" 0 "Gross Premium" (Value.num 5)).2).2 "sales" 0 "Gross Premium"
      = readWorkingCell (load_tables salesABC claimsABC) "sales" 0
          "Gross Premium" :=
  have h := reset_round_trip_spec (load_tables salesABC claimsABC) "sales" 0
    "Gross Premium" (Value.num 5)
    (update_cell (load_tables salesABC claimsABC) "sales" 0 "Gross Premium"
      (Value.num 5)).1
    (update_cell (load_tables salesABC claimsABC) "sales" 0 "Gross Premium"
      (Value.num 5)).2
    (addRowIds salesABC) (addRowIds claimsABC) rfl rfl rfl (by rfl)
  ⟨h.2.1, h.2.2.2.2.2 (by rfl)⟩

theorem lookup_cons_eq_key {k : String} {v : Value}
    {t : List (String × Value)} : List.lookup k ((k, v) :: t) = some v := by
  simp [List.lookup]

theorem lookup_cons_ne_key {k a : String} {v : Value}
    {t : List (String × Value)} (h : k ≠ a) :
    List.lookup k ((a, v) :: t) = List.lookup k t := by
  have hb : (k == a) = false := beq_eq_false_iff_ne.mpr h
  simp [List.lookup, hb]

theorem lookup_map_set (cells : List (String × Value)) (col : String)
    (v : Value) :
    (cells.map (fun p => if p.1 = col then (p.1, v) else p)).lookup col =
      (cells.lookup col).map (fun _ => v) := by
  induction cells with
  | nil => rfl
  | cons a t ih =>
    obtain ⟨k, w⟩ := a
    rw [List.map_cons]
    by_cases hk : k = col
    · subst hk
      rw [show (if (k, w).1 = k then ((k, w).1, v) else (k, w)) = (k, v)
          from by simp]
      rw [lookup_cons_eq_key, lookup_cons_eq_key]
      rfl
    · rw [show (if (k, w).1 = col then ((k, w).1, v) else (k, w)) = (k, w)
          from by simp [hk]]
      rw [lookup_cons_ne_key (fun h => hk h.symm),
        lookup_cons_ne_key (fun h => hk h.symm), ih]

theorem lookup_map_set_other (cells : List (String × Value)) (col c : String)
    (v : Value) (hc : c ≠ col) :
    (cells.map (fun p => if p.1 = col then (p.1, v) else p)).lookup c =
      cells.lookup c := by
  induction cells with
  | nil => rfl
  | cons a t ih =>
    obtain ⟨k, w⟩ := a
    rw [List.map_cons]
    by_cases hk : k = col
    · subst hk
      rw [show (if (k, w).1 = k then ((k, w).1, v) else (k, w)) = (k, v)
          from by simp]
      rw [lookup_cons_ne_key hc, lookup_cons_ne_key hc, ih]
    · rw [show (if (k, w).1 = col then ((k, w).1, v) else (k, w)) = (k, w)
          from by simp [hk]]
      by_cases hck : c = k
      · subst hck
        rw [lookup_cons_eq_key, lookup_cons_eq_key]
      · rw [lookup_cons_ne_key hck, lookup_cons_ne_key hck, ih]

/-- After `setCellRow`, the addressed cell holds the new value. -/
theorem setCellRow_get_same (r : Row) (col : String) (v : Value) :
    (setCellRow r col v).get col = v := by
  unfold setCellRow
  by_cases h : (r.cells.lookup col).isSome
  · rw [if_pos h]
    unfold Row.get
    rw [lookup_map_set]
    rcases hl : r.cells.lookup col with _ | w
    · rw [hl] at h
      simp at h
    · rfl
  · rw [if_neg h]
    unfold Row.get
    have hl : r.cells.lookup col = none := by
      rcases hq : r.cells.lookup col with _ | w
      · rfl
      · rw [hq] at h
        simp at h
    rw [lookup_append_of_none hl, lookup_cons_eq_key]

/-- After `setCellRow`, every other cell is unchanged. -/
theorem setCellRow_get_other (r : Row) (col c : String) (v : Value)
    (hc : c ≠ col) : (setCellRow r col v).get c = r.get c := by
  unfold setCellRow
  by_cases h : (r.cells.lookup col).isSome
  · rw [if_pos h]
    unfold Row.get
    rw [lookup_map_set_other r.cells col c v hc]
  · rw [if_neg h]
    unfold Row.get
    rcases hl : r.cells.lookup c with _ | w
    · rw [lookup_append_of_none hl, lookup_cons_ne_key hc]
      rfl
    · rw [lookup_append_of_some hl]

/-- With duplicate-free row ids, a matched id mask selects exactly one row. -/
theorem countP_idMask_eq_one (df : Table) (rid : Int)
    (hids : (df.rows.map (fun r => r.get "_row_id")).Nodup)
    (hany : df.rows.any (idMask rid) = true) :
    df.rows.countP (idMask rid) = 1 := by
  have hle :
      List.count (Value.num (rid : ℚ))
        (df.rows.map (fun r => r.get "_row_id")) ≤ 1 :=
    List.nodup_iff_count_le_one.mp hids _
  have hcnt : df.rows.countP (idMask rid) =
      List.count (Value.num (rid : ℚ))
        (df.rows.map (fun r => r.get "_row_id")) := by
    rw [List.count, List.countP_map]
    apply List.countP_congr
    intro r _
    simp [idMask, Function.comp]
  have hpos : 0 < df.rows.countP (idMask rid) := by
    rw [List.countP_pos]
    obtain ⟨r, hr, hm⟩ := List.any_eq_true.mp hany
    exact ⟨r, hr, hm⟩
  omega

/-- C5: a successful `update_cell` changes exactly the addressed cell of
exactly one row of the addressed working table (row ids assumed unique, as
load guarantees); all other cells of that row, all other rows, the other
working table and both original snapshots are untouched. -/
theorem update_cell_frame_spec (s : DPState) (table : String) (rid : Int)
    (col : String) (v : Value) (res : UpdateResult) (s' : DPState) (df : Table)
    (hdf : (if table = "sales" then s.sales_df else s.claims_df) = some df)
    (hids : (df.rows.map (fun r => r.get "_row_id")).Nodup)
    (hup : update_cell s table rid col v = (res, s'))
    (hok : res.isOk = true) :
    s'.original_sales_df = s.original_sales_df ∧
    s'.original_claims_df = s.original_claims_df ∧
    (if table = "sales" then s'.claims_df = s.claims_df
     else s'.sales_df = s.sales_df) ∧
    ∃ val, validate_value table col v = Except.ok val ∧
      (if table = "sales" then s'.sales_df else s'.claims_df) =
        some (updatedTable df rid col val) ∧
      df.rows.countP (idMask rid) = 1 ∧
      (updatedTable df rid col val).cols = df.cols ∧
      (updatedTable df rid col val).rows.length = df.rows.length ∧
      (∀ (i : Nat) (r : Row), df.rows[i]? = some r →
        (idMask rid r = false →
          (updatedTable df rid col val).rows[i]? = some r) ∧
        (idMask rid r = true →
          (updatedTable df rid col val).rows[i]? =
            some (setCellRow r col val) ∧
          (setCellRow r col val).get col = val ∧
          ∀ c, c ≠ col → (setCellRow r col val).get c = r.get c)) := by
  obtain ⟨df', val, hdf', hval, hany, -, -, -, -, -, ho1, ho2, hifs⟩ :=
    update_cell_ok_inv s table rid col v res s' hup hok
  have hdfeq : df' = df := by
    rw [hdf] at hdf'
    exact (Option.some.inj hdf').symm
  subst hdfeq
  refine ⟨ho1, ho2, ?_, val, hval, ?_, countP_idMask_eq_one _ rid hids hany,
    rfl, by simp [updatedTable], ?_⟩
  · by_cases ht : table = "sales" <;> simp_all
  · by_cases ht : table = "sales" <;> simp_all
  · intro i r hir
    constructor
    · intro hm
      simp [updatedTable, List.getElem?_map, hir, hm]
    · intro hm
      exact ⟨by simp [updatedTable, List.getElem?_map, hir, hm],
        setCellRow_get_same r col val,
        fun c hc => setCellRow_get_other r col c val hc⟩

/-- Witness for C5: a concrete accepted edit on the loaded fixture leaves
the claims working table untouched, and the id mask selects exactly one row. -/
theorem update_cell_frame_spec_witness :
    (update_cell (load_tables salesABC claimsABC) "sales" 0 "Gross Premium"
      (Value.num 7)).2.claims_df = (load_tables salesABC claimsABC).claims_df ∧
    (addRowIds salesABC).rows.countP (idMask 0) = 1 := by
  have h := update_cell_frame_spec (load_tables salesABC claimsABC) "sales" 0
    "Gross Premium" (Value.num 7)
    (update_cell (load_tables salesABC claimsABC) "sales" 0 "Gross Premium"
      (Value.num 7)).1
    (update_cell (load_tables salesABC claimsABC) "sales" 0 "Gross Premium"
      (Value.num 7)).2
    (addRowIds salesABC) (by decide) (by decide) rfl (by rfl)
  obtain ⟨-, -, hother, val, -, -, hcount, -⟩ := h
  exact ⟨by simpa using hother, hcount⟩

/-- One-policy sales fixture with zero premium (for the loss-ratio guard). -/
def salesZeroPrem : Table :=
  { cols := ["Policy No", "Dealer", "Make", "Gross Premium"]
    rows := [⟨[("Policy No", Value.str "A"), ("Dealer", Value.str "D1"),
               ("Make", Value.str "M1"), ("Gross Premium", Value.num 0)]⟩] }

/-- One-claim fixture worth 500 against that policy. -/
def claims500 : Table :=
  { cols := ["Policy No", "Total Auth Amount"]
    rows := [⟨[("Policy No", Value.str "A"),
               ("Total Auth Amount", Value.num 500)]⟩] }

/-- The all-absent filter spec is the identity filter. -/
theorem apply_filters_empty (t : Table) : apply_filters {} t = t := rfl

/-- C6 (code bug): the summary mapping carries every claimed KPI except the
distinct-dealer count — `get_summary` never emits a `uniqueDealers` key (for
any input), only `uniqueMakes`, although the same file's
`get_data_summary_for_ai` reads `summary['uniqueDealers']` and would raise
`KeyError`.  At the concrete zero-premium fixture the claimed loss-ratio
zero-guard holds: premium 0 with claims 500 gives `lossRatio = 0`. -/
theorem get_summary_missing_unique_dealers :
    (∀ (salesT claimsT : Table) (merged : Option Table) (f : FilterSpec),
      (summaryCompute salesT claimsT merged f).lookup "uniqueDealers" = none ∧
      ((summaryCompute salesT claimsT merged f).lookup "uniqueMakes").isSome
        = true) ∧
    ((get_summary (load_tables salesZeroPrem claims500) none).1.lookup
        "uniqueDealers" = none ∧
     (get_summary (load_tables salesZeroPrem claims500) none).1.lookup
        "lossRatio" = some (Value.num 0) ∧
     (get_summary (load_tables salesZeroPrem claims500) none).1.lookup
        "totalClaimsAmount" = some (Value.num 500)) := by
  constructor
  · intro salesT claimsT merged f
    constructor
    · unfold summaryCompute
      simp [List.lookup]
    · unfold summaryCompute
      simp [List.lookup]
  · have hres : (get_summary (load_tables salesZeroPrem claims500) none).1 =
        summaryCompute (addRowIds salesZeroPrem) (addRowIds claims500)
          (some (build_merged (addRowIds salesZeroPrem) (addRowIds claims500)))
          {} := rfl
    have hsum : colSumRows (addRowIds salesZeroPrem).rows "Gross Premium"
        = 0 := by
      have hmap : (addRowIds salesZeroPrem).rows.map
          (fun r => toNum (r.get "Gross Premium")) = [0] := by decide
      simp [colSumRows, hmap]
    have hclaims : colSumRows (addRowIds claims500).rows "Total Auth Amount"
        = 500 := by
      have hmap : (addRowIds claims500).rows.map
          (fun r => toNum (r.get "Total Auth Amount")) = [500] := by decide
      simp [colSumRows, hmap]
    have hmem : "Total Auth Amount" ∈ (addRowIds claims500).cols := by decide
    refine ⟨?_, ?_, ?_⟩
    · rw [hres]
      unfold summaryCompute
      simp [List.lookup]
    · rw [hres]
      unfold summaryCompute
      simp only [apply_filters_empty]
      simp [List.lookup, hsum, hclaims, hmem]
      norm_num [roundTo]
    · rw [hres]
      unfold summaryCompute
      simp only [apply_filters_empty]
      simp [List.lookup, hsum, hclaims, hmem]
      norm_num [roundTo]

/-- An absent `date_from` imposes nothing. -/
theorem dateFromStep_none (t : Table) : dateFromStep none t = t := rfl

/-- An absent `date_to` imposes nothing. -/
theorem dateToStep_none (t : Table) : dateToStep none t = t := rfl

/-- `dateFromStep` with an inactive or unparseable bound is the identity. -/
theorem dateFromStep_id_of_bad_bound (b : String) (t : Table)
    (h : b ≠ "" → parseDate b = none) : dateFromStep (some b) t = t := by
  simp only [dateFromStep]
  by_cases hb : b = ""
  · rw [if_pos hb]
  · rw [if_neg hb]
    rcases hc : find_column t dateCands with _ | col
    · rfl
    · rw [h hb]

/-- `dateToStep` with an inactive or unparseable bound is the identity. -/
theorem dateToStep_id_of_bad_bound (b : String) (t : Table)
    (h : b ≠ "" → parseDate b = none) : dateToStep (some b) t = t := by
  simp only [dateToStep]
  by_cases hb : b = ""
  · rw [if_pos hb]
  · rw [if_neg hb]
    rcases hc : find_column t dateCands with _ | col
    · rfl
    · rw [h hb]

/-- A single unparseable cell in the resolved date column makes the whole
`to_datetime` conversion raise, so the `date_from` dimension is skipped. -/
theorem dateFromStep_id_of_unparseable_cell (o : Option String) (t : Table)
    (col : String) (hcol : find_column t dateCands = some col)
    (r : Row) (hr : r ∈ t.rows) (he : dateCellKey (r.get col) = .error ()) :
    dateFromStep o t = t := by
  rcases o with _ | b
  · rfl
  · simp only [dateFromStep]
    by_cases hb : b = ""
    · rw [if_pos hb]
    · rw [if_neg hb, hcol]
      rcases hp : parseDate b with _ | bk
      · rfl
      · have hcp : colParses t.rows col = false := by
          cases hcpv : colParses t.rows col
          · rfl
          · have := List.all_eq_true.mp hcpv r hr
            rw [he] at this
            simp at this
        simp [hcp]

/-- Same for the `date_to` dimension. -/
theorem dateToStep_id_of_unparseable_cell (o : Option String) (t : Table)
    (col : String) (hcol : find_column t dateCands = some col)
    (r : Row) (hr : r ∈ t.rows) (he : dateCellKey (r.get col) = .error ()) :
    dateToStep o t = t := by
  rcases o with _ | b
  · rfl
  · simp only [dateToStep]
    by_cases hb : b = ""
    · rw [if_pos hb]
    · rw [if_neg hb, hcol]
      rcases hp : parseDate b with _ | bk
      · rfl
      · have hcp : colParses t.rows col = false := by
          cases hcpv : colParses t.rows col
          · rfl
          · have := List.all_eq_true.mp hcpv r hr
            rw [he] at this
            simp at this
        simp [hcp]

/-- C7: the date-range dimensions fail open, never raising.  (a) A row whose
date cell is unparseable survives both date bounds (any such cell makes the
guarded column conversion fail, which skips the bound).  (b) If every active
date bound is unparseable, the whole filter pipeline returns exactly the row
set of the same FilterSpec with no date filter at all. -/
theorem date_filter_fail_open_spec (t : Table) (spec : FilterSpec) :
    (∀ (col : String) (r : Row), find_column t dateCands = some col →
      r ∈ t.rows → dateCellKey (r.get col) = .error () →
      r ∈ (dateToStep spec.date_to (dateFromStep spec.date_from t)).rows) ∧
    ((∀ b, spec.date_from = some b → b ≠ "" → parseDate b = none) →
     (∀ b, spec.date_to = some b → b ≠ "" → parseDate b = none) →
     apply_filters spec t =
       apply_filters { spec with date_from := none, date_to := none } t) := by
  constructor
  · intro col r hcol hr he
    rw [dateFromStep_id_of_unparseable_cell spec.date_from t col hcol r hr he,
      dateToStep_id_of_unparseable_cell spec.date_to t col hcol r hr he]
    exact hr
  · intro hbf hbt
    have h1 : ∀ X : Table, dateFromStep spec.date_from X = X := by
      intro X
      rcases ho : spec.date_from with _ | b
      · rfl
      · exact dateFromStep_id_of_bad_bound b X (hbf b ho)
    have h2 : ∀ X : Table, dateToStep spec.date_to X = X := by
      intro X
      rcases ho : spec.date_to with _ | b
      · rfl
      · exact dateToStep_id_of_bad_bound b X (hbt b ho)
    simp [apply_filters, h1, h2, dateFromStep_none, dateToStep_none]

/-- Five-row dated fixture; row 4 carries an unparseable date cell. -/
def dated5 : Table :=
  { cols := ["Policy Sold Date", "Dealer"]
    rows :=
      [⟨[("Policy Sold Date", Value.str "2020-01-01"), ("Dealer", Value.str "D1")]⟩,
       ⟨[("Policy Sold Date", Value.str "2020-02-01"), ("Dealer", Value.str "D2")]⟩,
       ⟨[("Policy Sold Date", Value.str "2020-03-01"), ("Dealer", Value.str "D3")]⟩,
       ⟨[("Policy Sold Date", Value.str "2020-04-01"), ("Dealer", Value.str "D4")]⟩,
       ⟨[("Policy Sold Date", Value.str "garbage"), ("Dealer", Value.str "D5")]⟩] }

/-- Witness for C7 on the 5-row fixture: an unparseable `date_from` bound
yields exactly the row set of the date-free spec, and the garbage-dated row
survives the date steps. -/
theorem date_filter_fail_open_spec_witness :
    apply_filters { date_from := some "not-a-date" } dated5 =
      apply_filters
        ({ date_from := some "not-a-date" : FilterSpec } |> fun sp =>
          { sp with date_from := none, date_to := none }) dated5 ∧
    dated5.rows[4] ∈
      (dateToStep (none : Option String)
        (dateFromStep (some "not-a-date") dated5)).rows := by
  have h := date_filter_fail_open_spec dated5 { date_from := some "not-a-date" }
  exact ⟨h.2 (by intro b hb hne; cases hb; decide)
           (by intro b hb hne; cases hb),
         h.1 "Policy Sold Date" dated5.rows[4] (by decide) (by decide)
           (by rfl)⟩

/-- `get_raw_data` dispatch once the addressed table is loaded. -/
theorem get_raw_data_some (s : DPState) (table : String) (page limit : Int)
    (f : Option FilterSpec) (sb : Option String) (sd : String) (df : Table)
    (hdf : (if table = "sales" then s.sales_df
            else if table = "claims" then s.claims_df else none) = some df) :
    get_raw_data s table page limit f sb sd =
      get_raw_data_loaded df page limit f sb sd := by
  unfold get_raw_data
  rw [hdf]

/-- Ceiling-division characterization of the `pages` formula
`max(1, (total + limit - 1) // limit)` for a positive total. -/
theorem pages_eq_ceil (t l : Nat) (hl0 : 0 < l) (ht : 0 < t) :
    max 1 (((t : Int) + (l : Int) - 1).fdiv (l : Int)) =
      (((t + l - 1) / l : Nat) : Int) ∧
    ((((t + l - 1) / l : Nat) : Int) - 1) * (l : Int) < (t : Int) ∧
    (t : Int) ≤ (((t + l - 1) / l : Nat) : Int) * (l : Int) := by
  have hcast : (t : Int) + (l : Int) - 1 = ((t + l - 1 : Nat) : Int) := by
    omega
  have hfd : (((t + l - 1 : Nat) : Int)).fdiv (l : Int) =
      (((t + l - 1) / l : Nat) : Int) := by
    rw [Int.fdiv_eq_ediv _ (by positivity), Int.natCast_div]
  set q := (t + l - 1) / l with hq
  have hdm : l * q + (t + l - 1) % l = t + l - 1 := Nat.div_add_mod _ _
  have hr : (t + l - 1) % l < l := Nat.mod_lt _ hl0
  have hq1 : 1 ≤ q := by
    rw [hq, Nat.le_div_iff_mul_le hl0]
    omega
  refine ⟨?_, ?_, ?_⟩
  · rw [hcast, hfd]
    omega
  · have hml : (((q : Int)) - 1) * (l : Int) =
        ((l * q : Nat) : Int) - (l : Int) := by
      push_cast
      ring
    rw [hml]
    omega
  · have hml : ((q : Int)) * (l : Int) = ((l * q : Nat) : Int) := by
      push_cast
      ring
    rw [hml]
    omega

/-- C8 (amended): for every loaded table, page and positive limit,
`get_raw_data` reports `total` = number of surviving rows,
`pages = max(1, ceil(total/limit))` — which equals `ceil(total/limit)`
whenever at least one row survives, but is 1 (not 0) for an empty result —
clamps the page into `[1, pages]` (the identity on pages already in range),
and returns the 1-based slice `[(page'-1)*limit, page'*limit)` of the
filtered, optionally sorted rows. -/
theorem get_raw_data_pagination_spec (s : DPState) (table : String)
    (page limit : Int) (f : Option FilterSpec) (sb : Option String)
    (sd : String) (df : Table) (l : Nat)
    (hdf : (if table = "sales" then s.sales_df
            else if table = "claims" then s.claims_df else none) = some df)
    (hl : limit = (l : Int)) (hl0 : 0 < l) :
    (get_raw_data s table page limit f sb sd).total =
      (rawPipeline df f sb sd).rows.length ∧
    (get_raw_data s table page limit f sb sd).pages =
      max 1 ((((get_raw_data s table page limit f sb sd).total : Int) +
        limit - 1).fdiv limit) ∧
    (0 < (get_raw_data s table page limit f sb sd).total →
      (get_raw_data s table page limit f sb sd).pages =
        ((((get_raw_data s table page limit f sb sd).total + l - 1) / l
          : Nat) : Int) ∧
      ((get_raw_data s table page limit f sb sd).pages - 1) * limit <
        ((get_raw_data s table page limit f sb sd).total : Int) ∧
      ((get_raw_data s table page limit f sb sd).total : Int) ≤
        (get_raw_data s table page limit f sb sd).pages * limit) ∧
    ((get_raw_data s table page limit f sb sd).total = 0 →
      (get_raw_data s table page limit f sb sd).pages = 1) ∧
    1 ≤ (get_raw_data s table page limit f sb sd).page ∧
    (get_raw_data s table page limit f sb sd).page ≤
      (get_raw_data s table page limit f sb sd).pages ∧
    (1 ≤ page → page ≤ (get_raw_data s table page limit f sb sd).pages →
      (get_raw_data s table page limit f sb sd).page = page) ∧
    (get_raw_data s table page limit f sb sd).rows =
      ((rawPipeline df f sb sd).rows.drop
        (((get_raw_data s table page limit f sb sd).page - 1) * limit).toNat).take
        limit.toNat := by
  rw [get_raw_data_some s table page limit f sb sd df hdf]
  unfold get_raw_data_loaded
  dsimp only
  set t := (rawPipeline df f sb sd).rows.length with htdef
  refine ⟨rfl, rfl, ?_, ?_, ?_, ?_, ?_, rfl⟩
  · intro ht
    subst hl
    obtain ⟨h1, h2, h3⟩ := pages_eq_ceil t l hl0 ht
    exact ⟨h1, by rw [h1]; exact h2, by rw [h1]; exact h3⟩
  · intro ht
    simp only [ht]
    subst hl
    have hc : ((0 : Nat) : Int) + (l : Int) - 1 = ((l - 1 : Nat) : Int) := by
      omega
    rw [hc, Int.fdiv_eq_ediv _ (by positivity), ← Int.natCast_div]
    have : (l - 1) / l = 0 := Nat.div_eq_of_lt (by omega)
    rw [this]
    simp
  · exact le_max_left _ _
  · have h1 : (1 : Int) ≤ max 1 (((t : Int) + limit - 1).fdiv limit) :=
      le_max_left _ _
    omega
  · intro hp1 hp2
    omega

/-- Empty sales fixture (0 surviving rows). -/
def emptySales : Table := { cols := ["Policy No"], rows := [] }

/-- Counterexample to C8 as stated: with 0 surviving rows and limit 100 the
code reports `pages = 1`, while `ceil(total/limit) = 0` — so `pages` is not
`ceil(total/limit)` and the claimed clamp interval `[1, 0]` is empty. -/
theorem get_raw_data_pages_counterexample :
    (get_raw_data (load_tables emptySales claimsABC) "sales" 1 100 none none
      "asc").total = 0 ∧
    (get_raw_data (load_tables emptySales claimsABC) "sales" 1 100 none none
      "asc").pages = 1 ∧
    ((0 : Int) + 100 - 1).fdiv 100 = 0 := by
  refine ⟨by decide, by decide, by decide⟩

/-- 101-policy sales fixture for the pagination example. -/
def sales101 : Table :=
  { cols := ["Policy No"]
    rows := (List.range 101).map (fun i => ⟨[("Policy No", Value.num i)]⟩) }

/-- Witness for C8 (amended) at the spec's example: 101 surviving rows with
limit 100 give page 1 = 100 rows and `pages = 2`, and a request for page 99
is clamped to page 2. -/
theorem get_raw_data_pagination_spec_witness :
    (get_raw_data (load_tables sales101 claimsABC) "sales" 1 100 none none
      "asc").rows.length = 100 ∧
    (get_raw_data (load_tables sales101 claimsABC) "sales" 1 100 none none
      "asc").pages = 2 ∧
    (get_raw_data (load_tables sales101 claimsABC) "sales" 99 100 none none
      "asc").page = 2 := by
  have h1 := get_raw_data_pagination_spec (load_tables sales101 claimsABC)
    "sales" 1 100 none none "asc" (addRowIds sales101) 100 rfl rfl (by omega)
  have h99 := get_raw_data_pagination_spec (load_tables sales101 claimsABC)
    "sales" 99 100 none none "asc" (addRowIds sales101) 100 rfl rfl (by omega)
  have htot : (get_raw_data (load_tables sales101 claimsABC) "sales" 1 100
      none none "asc").total = 101 := by decide
  have hb : 0 < (get_raw_data (load_tables sales101 claimsABC) "sales" 1 100
      none none "asc").total := by rw [htot]; omega
  refine ⟨by decide, ?_, ?_⟩
  · rw [(h1.2.2.1 hb).1, htot]
    decide
  · have hlo := h99.2.2.2.2.1
    have hhi := h99.2.2.2.2.2.1
    have hpages : (get_raw_data (load_tables sales101 claimsABC) "sales" 99
        100 none none "asc").pages = 2 := by decide
    rw [hpages] at hhi
    have : (get_raw_data (load_tables sales101 claimsABC) "sales" 99 100 none
        none "asc").page = 2 := by decide
    exact this

/-- `insertLe` permutes to a cons. -/
theorem insertLe_perm {α : Type} (le : α → α → Bool) (x : α) (l : List α) :
    List.Perm (insertLe le x l) (x :: l) := by
  induction l with
  | nil => exact List.Perm.refl _
  | cons h t ih =>
    unfold insertLe
    by_cases hc : le x h = true
    · simp [hc]
    · simp only [hc, if_false, Bool.false_eq_true]
      exact (ih.cons h).trans (List.Perm.swap x h t)

/-- The insertion sort is a permutation of its input. -/
theorem sortLe_perm {α : Type} (le : α → α → Bool) (l : List α) :
    List.Perm (sortLe le l) l := by
  induction l with
  | nil => exact List.Perm.refl _
  | cons a t ih => exact (insertLe_perm le a (sortLe le t)).trans (ih.cons a)

/-- Every row of the (possibly sorted) pipeline output is a filtered row. -/
theorem mem_rawPipeline_rows (df : Table) (f : Option FilterSpec)
    (sb : Option String) (sd : String) (r : Row)
    (hr : r ∈ (rawPipeline df f sb sd).rows) :
    r ∈ (apply_filters (f.getD {}) df).rows := by
  rcases sb with _ | c
  · simp only [rawPipeline] at hr
    exact hr
  · simp only [rawPipeline] at hr
    split at hr
    · exact ((sortLe_perm _ _).mem_iff).mp hr
    · exact hr

/-- Counterexample to C9 as stated: row records returned by `get_raw_data`
still carry the `_row_id` cell (`to_dict('records')` runs on a frame from
which `_row_id` was never dropped) — here the first returned record holds
`_row_id = 0`. -/
theorem get_raw_data_rowid_counterexample :
    ((get_raw_data (load_tables salesABC claimsABC) "sales" 1 100 none none
      "asc").rows[0]?.map (fun r => r.cells.lookup "_row_id")) =
      some (some (Value.num 0)) := by decide

/-- C9 (amended): the `columns` list returned by `get_raw_data` excludes the
synthetic `_row_id` column, but the row records are returned verbatim — each
is a row of the filtered working table, so records retain their `_row_id`
cell (used by clients to address edits). -/
theorem get_raw_data_rowid_spec (s : DPState) (table : String)
    (page limit : Int) (f : Option FilterSpec) (sb : Option String)
    (sd : String) (df : Table)
    (hdf : (if table = "sales" then s.sales_df
            else if table = "claims" then s.claims_df else none) = some df) :
    ("_row_id" ∉ (get_raw_data s table page limit f sb sd).columns) ∧
    (get_raw_data s table page limit f sb sd).columns =
      (rawPipeline df f sb sd).cols.filter (fun c => decide (c ≠ "_row_id")) ∧
    ∀ r ∈ (get_raw_data s table page limit f sb sd).rows,
      r ∈ (apply_filters (f.getD {}) df).rows := by
  rw [get_raw_data_some s table page limit f sb sd df hdf]
  unfold get_raw_data_loaded
  dsimp only
  refine ⟨?_, rfl, ?_⟩
  · intro hmem
    have h := (List.mem_filter.mp hmem).2
    simp at h
  · intro r hr
    exact mem_rawPipeline_rows df f sb sd r
      (List.mem_of_mem_drop (List.mem_of_mem_take hr))

/-- Witness for C9 (amended) at the loaded fixture. -/
theorem get_raw_data_rowid_spec_witness :
    ("_row_id" ∉ (get_raw_data (load_tables salesABC claimsABC) "sales" 1 100
      none none "asc").columns) ∧
    ∀ r ∈ (get_raw_data (load_tables salesABC claimsABC) "sales" 1 100 none
      none "asc").rows,
      r ∈ (apply_filters ((none : Option FilterSpec).getD {})
        (addRowIds salesABC)).rows := by
  have h := get_raw_data_rowid_spec (load_tables salesABC claimsABC) "sales"
    1 100 none none "asc" (addRowIds salesABC) rfl
  exact ⟨h.1, h.2.2⟩

/-- C10: before any successful load (no tables, empty cache), every read
operation returns an empty result without raising — `get_summary` an empty
mapping, `get_raw_data` an empty page with total 0, the grouped breakdowns
(`get_sales_monthly`, `get_sales_dealers`) and `get_insights` empty
sequences — and `update_cell` / `reset_data` return an explicit
`'No data loaded'` failure value, leaving the state untouched. -/
theorem no_data_loaded_spec (s : DPState)
    (hs : s.sales_df = none) (hc : s.claims_df = none)
    (ho : s.original_sales_df = none) (hq : s.query_cache = [])
    (f : Option FilterSpec) (table : String) (page limit : Int)
    (sb : Option String) (sd : String) (rid : Int) (col : String)
    (v : Value) :
    (get_summary s f).1 = [] ∧ (get_summary s f).2 = s ∧
    (get_raw_data s table page limit f sb sd).rows = [] ∧
    (get_raw_data s table page limit f sb sd).total = 0 ∧
    (get_sales_monthly s f).1 = [] ∧
    (get_sales_dealers s f).1 = [] ∧
    (get_insights s f).1 = [] ∧
    update_cell s table rid col v = (.err "No data loaded", s) ∧
    reset_data s = (.err "No data loaded", s) := by
  have hlook : ∀ k, lookupCache s.query_cache k = none := by
    intro k
    rw [hq]
    rfl
  have hnone : (if table = "sales" then s.sales_df
      else if table = "claims" then s.claims_df else none) = none := by
    by_cases h1 : table = "sales" <;> by_cases h2 : table = "claims" <;>
      simp [h1, h2, hs, hc]
  refine ⟨?_, ?_, ?_, ?_, ?_, ?_, ?_, ?_, ?_⟩
  · simp [get_summary, hlook, hs]
  · simp [get_summary, hlook, hs]
  · simp [get_raw_data, hnone]
  · simp [get_raw_data, hnone]
  · simp [get_sales_monthly, hlook, hs]
  · simp [get_sales_dealers, hlook, hs]
  · simp [get_insights, hlook, hs]
  · rw [update_cell_df_none s table rid col v]
    by_cases h1 : table = "sales" <;> simp [h1, hs, hc]
  · simp [reset_data, ho]

/-- Witness for C10 at the freshly constructed processor state. -/
theorem no_data_loaded_spec_witness :
    (get_summary initState none).1 = [] ∧
    (get_raw_data initState "sales" 1 100 none none "asc").total = 0 ∧
    (get_insights initState none).1 = [] ∧
    update_cell initState "sales" 0 "Gross Premium" (Value.num 5) =
      (.err "No data loaded", initState) ∧
    reset_data initState = (.err "No data loaded", initState) := by
  have h := no_data_loaded_spec initState rfl rfl rfl rfl none "sales" 1 100
    none "asc" 0 "Gross Premium" (Value.num 5)
  exact ⟨h.1, h.2.2.2.1, h.2.2.2.2.2.2.1, h.2.2.2.2.2.2.2.1, h.2.2.2.2.2.2.2.2⟩
